import Mathlib

/-!
Shallow embedding of the MFEM partial-assembly convection kernels from
fem/integ/bilininteg_convection_pa.cpp: the Setup kernels (2D and 3D), the
generic and shared-memory Apply and ApplyTranspose kernels, and the dispatch
layer.  The machine real type real_t is modelled exactly by the rationals;
flat Vector and Array arguments are modelled as functions from linear indices
to rationals, and each Reshape accessor is translated as the corresponding
index computation.
-/

namespace MFEMConv

/-- The kernel scalar type real_t, modelled exactly by the rationals. -/
abbrev real_t := ℚ

/- ### Setup kernels

PAConvectionSetup2D reads, for each quadrature point q and element e, the
Jacobian entries J(q,i,j,e) from the flat vector j (shape (NQ,2,2,NE)), the
quadrature weight W(q), and the velocity sample; vel holds either a single
constant vector (size DIM) or a per-point field of shape (DIM,NQ,NE), chosen
by comparing its size with DIM as the source does. -/

/-- Reshape accessor for the 2D Jacobian vector, shape (NQ,2,2,NE): the
entry J(q,r,c,e) of the source. -/
def conv2dJ (NQ : ℕ) (j : ℕ → real_t) (q e : ℕ) (r c : Fin 2) : real_t :=
  j (q + NQ * ((r : ℕ) + 2 * ((c : ℕ) + 2 * e)))

/-- The 2D Jacobian at (q,e) as a matrix. -/
def conv2dJmat (NQ : ℕ) (j : ℕ → real_t) (q e : ℕ) : Matrix (Fin 2) (Fin 2) real_t :=
  Matrix.of (conv2dJ NQ j q e)

/-- Velocity sample in 2D: the constant vector when vel has size DIM = 2
(const_v in the source), else the per-point entry V(c,q,e) of the
(2,NQ,NE)-shaped field. -/
def conv2dVel (NQ velSize : ℕ) (vel : ℕ → real_t) (q e : ℕ) (c : Fin 2) : real_t :=
  if velSize = 2 then vel (c : ℕ) else vel ((c : ℕ) + 2 * (q + NQ * e))

/-- Body of the PAConvectionSetup2D forall loop: the value written to
y(q,c,e).  Mirrors the source: w = alpha*W[q], wx = w*v0, wy = w*v1,
y(q,0,e) = wx*J22 - wy*J12 and y(q,1,e) = -wx*J21 + wy*J11. -/
def conv2dSetupVal (NQ : ℕ) (W : ℕ → real_t) (j : ℕ → real_t)
    (velSize : ℕ) (vel : ℕ → real_t) (alpha : real_t) (q e : ℕ) (c : Fin 2) : real_t :=
  let J11 := conv2dJ NQ j q e 0 0
  let J21 := conv2dJ NQ j q e 1 0
  let J12 := conv2dJ NQ j q e 0 1
  let J22 := conv2dJ NQ j q e 1 1
  let w := alpha * W q
  let v0 := conv2dVel NQ velSize vel q e 0
  let v1 := conv2dVel NQ velSize vel q e 1
  let wx := w * v0
  let wy := w * v1
  if c = 0 then wx * J22 - wy * J12 else -wx * J21 + wy * J11

/-- PAConvectionSetup2D as a transformer of the flat coefficient buffer op
(shape (NQ,2,NE)): every in-range entry is overwritten with the kernel value
for its decoded (q,c,e); the function is the whole written buffer. -/
def PAConvectionSetup2D (NQ NE : ℕ) (W : ℕ → real_t) (j : ℕ → real_t)
    (velSize : ℕ) (vel : ℕ → real_t) (alpha : real_t) (op : ℕ → real_t) : ℕ → real_t :=
  fun i =>
    if i < NQ * 2 * NE then
      conv2dSetupVal NQ W j velSize vel alpha (i % NQ) (i / (NQ * 2))
        ⟨i / NQ % 2, Nat.mod_lt _ (by omega)⟩
    else op i

/-- Reshape accessor for the 3D Jacobian vector, shape (NQ,3,3,NE). -/
def conv3dJ (NQ : ℕ) (j : ℕ → real_t) (q e : ℕ) (r c : Fin 3) : real_t :=
  j (q + NQ * ((r : ℕ) + 3 * ((c : ℕ) + 3 * e)))

/-- The 3D Jacobian at (q,e) as a matrix. -/
def conv3dJmat (NQ : ℕ) (j : ℕ → real_t) (q e : ℕ) : Matrix (Fin 3) (Fin 3) real_t :=
  Matrix.of (conv3dJ NQ j q e)

/-- Velocity sample in 3D, shape (3,NQ,NE) when not constant. -/
def conv3dVel (NQ velSize : ℕ) (vel : ℕ → real_t) (q e : ℕ) (c : Fin 3) : real_t :=
  if velSize = 3 then vel (c : ℕ) else vel ((c : ℕ) + 3 * (q + NQ * e))

/-- Body of the PAConvectionSetup3D forall loop: the value written to
y(q,c,e), computing the nine adjugate entries A11..A33 exactly as the
source does and combining them with wx, wy, wz. -/
def conv3dSetupVal (NQ : ℕ) (W : ℕ → real_t) (j : ℕ → real_t)
    (velSize : ℕ) (vel : ℕ → real_t) (alpha : real_t) (q e : ℕ) (c : Fin 3) : real_t :=
  let J11 := conv3dJ NQ j q e 0 0
  let J12 := conv3dJ NQ j q e 0 1
  let J13 := conv3dJ NQ j q e 0 2
  let J21 := conv3dJ NQ j q e 1 0
  let J22 := conv3dJ NQ j q e 1 1
  let J23 := conv3dJ NQ j q e 1 2
  let J31 := conv3dJ NQ j q e 2 0
  let J32 := conv3dJ NQ j q e 2 1
  let J33 := conv3dJ NQ j q e 2 2
  let w := alpha * W q
  let v0 := conv3dVel NQ velSize vel q e 0
  let v1 := conv3dVel NQ velSize vel q e 1
  let v2 := conv3dVel NQ velSize vel q e 2
  let wx := w * v0
  let wy := w * v1
  let wz := w * v2
  let A11 := (J22 * J33) - (J23 * J32)
  let A12 := (J32 * J13) - (J12 * J33)
  let A13 := (J12 * J23) - (J22 * J13)
  let A21 := (J31 * J23) - (J21 * J33)
  let A22 := (J11 * J33) - (J13 * J31)
  let A23 := (J21 * J13) - (J11 * J23)
  let A31 := (J21 * J32) - (J31 * J22)
  let A32 := (J31 * J12) - (J11 * J32)
  let A33 := (J11 * J22) - (J12 * J21)
  if c = 0 then wx * A11 + wy * A12 + wz * A13
  else if c = 1 then wx * A21 + wy * A22 + wz * A23
  else wx * A31 + wy * A32 + wz * A33

/-- PAConvectionSetup3D as a transformer of the flat coefficient buffer op
(shape (NQ,3,NE)). -/
def PAConvectionSetup3D (NQ NE : ℕ) (W : ℕ → real_t) (j : ℕ → real_t)
    (velSize : ℕ) (vel : ℕ → real_t) (alpha : real_t) (op : ℕ → real_t) : ℕ → real_t :=
  fun i =>
    if i < NQ * 3 * NE then
      conv3dSetupVal NQ W j velSize vel alpha (i % NQ) (i / (NQ * 3))
        ⟨i / NQ % 3, Nat.mod_lt _ (by omega)⟩
    else op i

/-- PAConvectionSetup: aborts (none) when dim == 1; dispatches to the 2D or
3D kernel when dim is 2 or 3; any other dim falls through all three ifs of
the source and returns with the buffer untouched. -/
def PAConvectionSetup (dim NQ NE : ℕ) (W : ℕ → real_t) (j : ℕ → real_t)
    (velSize : ℕ) (vel : ℕ → real_t) (alpha : real_t) (op : ℕ → real_t) :
    Option (ℕ → real_t) :=
  if dim = 1 then none
  else some
    (if dim = 2 then PAConvectionSetup2D NQ NE W j velSize vel alpha op
     else if dim = 3 then PAConvectionSetup3D NQ NE W j velSize vel alpha op
     else op)

/-- The cofactor matrix of a 3x3 matrix: the transpose of the adjugate, so
cofactorMat M j i is the (j,i) cofactor and equals adjugate M i j. -/
def cofactorMat (M : Matrix (Fin 3) (Fin 3) real_t) : Matrix (Fin 3) (Fin 3) real_t :=
  (Matrix.adjugate M).transpose

/- ### Generic Apply kernels (Fin-indexed view)

The kernels are embedded per element: basis tables are the Reshape views
B,G (shape (Q1D,D1D)) and Bt,Gt (shape (D1D,Q1D)); each loop nest that fills
an intermediate array becomes a definition giving the value of one cell of
that array.  D is dofs per axis (D1D), Q is quadrature points per axis
(Q1D). -/

/-- Stage Bu of PAConvectionApply2D: Bu[dy][qx] = sum_dx B(qx,dx)*x(dx,dy). -/
def conv2dBu {D Q : ℕ} (B : Fin Q → Fin D → real_t) (x : Fin D → Fin D → real_t)
    (dy : Fin D) (qx : Fin Q) : real_t :=
  ∑ dx, B qx dx * x dx dy

/-- Stage Gu of PAConvectionApply2D: Gu[dy][qx] = sum_dx G(qx,dx)*x(dx,dy). -/
def conv2dGu {D Q : ℕ} (G : Fin Q → Fin D → real_t) (x : Fin D → Fin D → real_t)
    (dy : Fin D) (qx : Fin Q) : real_t :=
  ∑ dx, G qx dx * x dx dy

/-- Stage GBu of PAConvectionApply2D: GBu[qy][qx] = sum_dy G(qy,dy)*Bu[dy][qx]. -/
def conv2dGBu {D Q : ℕ} (B G : Fin Q → Fin D → real_t) (x : Fin D → Fin D → real_t)
    (qy qx : Fin Q) : real_t :=
  ∑ dy, G qy dy * conv2dBu B x dy qx

/-- Stage BGu of PAConvectionApply2D: BGu[qy][qx] = sum_dy B(qy,dy)*Gu[dy][qx]. -/
def conv2dBGu {D Q : ℕ} (B G : Fin Q → Fin D → real_t) (x : Fin D → Fin D → real_t)
    (qy qx : Fin Q) : real_t :=
  ∑ dy, B qy dy * conv2dGu G x dy qx

/-- Stage DGu of PAConvectionApply2D: the directional derivatives dotted with
the operator coefficients, DGu[qy][qx] = O1*gradX + O2*gradY with
gradX = BGu and gradY = GBu. -/
def conv2dDGu {D Q : ℕ} (B G : Fin Q → Fin D → real_t)
    (O : Fin Q → Fin Q → Fin 2 → real_t) (x : Fin D → Fin D → real_t)
    (qy qx : Fin Q) : real_t :=
  O qx qy 0 * conv2dBGu B G x qy qx + O qx qy 1 * conv2dGBu B G x qy qx

/-- Stage BDGu of PAConvectionApply2D: BDGu[dy][qx] = sum_qy Bt(dy,qy)*DGu. -/
def conv2dBDGu {D Q : ℕ} (B G : Fin Q → Fin D → real_t) (Bt : Fin D → Fin Q → real_t)
    (O : Fin Q → Fin Q → Fin 2 → real_t) (x : Fin D → Fin D → real_t)
    (dy : Fin D) (qx : Fin Q) : real_t :=
  ∑ qy, Bt dy qy * conv2dDGu B G O x qy qx

/-- The per-element contribution BBDGu accumulated into y(dx,dy,e) by
PAConvectionApply2D. -/
def conv2dContrib {D Q : ℕ} (B G : Fin Q → Fin D → real_t) (Bt : Fin D → Fin Q → real_t)
    (O : Fin Q → Fin Q → Fin 2 → real_t) (x : Fin D → Fin D → real_t)
    (dx dy : Fin D) : real_t :=
  ∑ qx, Bt dx qx * conv2dBDGu B G Bt O x dy qx

/-- PAConvectionApply2D: adds the per-element contribution into y; op is the
Reshape view of the coefficient buffer with shape (Q1D,Q1D,2,NE), x and y
the dof tensors of shape (D1D,D1D,NE).  Gt is passed but unused, as in the
source. -/
def PAConvectionApply2D {D Q NE : ℕ} (B G : Fin Q → Fin D → real_t)
    (Bt Gt : Fin D → Fin Q → real_t)
    (op : Fin Q → Fin Q → Fin 2 → Fin NE → real_t)
    (x y : Fin D → Fin D → Fin NE → real_t) : Fin D → Fin D → Fin NE → real_t :=
  fun dx dy e =>
    y dx dy e + conv2dContrib B G Bt (fun qx qy c => op qx qy c e)
      (fun a b => x a b e) dx dy

/-- Stage Bu of PAConvectionApplyT2D. -/
def convT2dBu {D Q : ℕ} (B : Fin Q → Fin D → real_t) (x : Fin D → Fin D → real_t)
    (dy : Fin D) (qx : Fin Q) : real_t :=
  ∑ dx, B qx dx * x dx dy

/-- Stage BBu of PAConvectionApplyT2D: the interpolated field at quadrature
points, BBu[qy][qx] = sum_dy B(qy,dy)*Bu[dy][qx]. -/
def convT2dBBu {D Q : ℕ} (B : Fin Q → Fin D → real_t) (x : Fin D → Fin D → real_t)
    (qy qx : Fin Q) : real_t :=
  ∑ dy, B qy dy * convT2dBu B x dy qx

/-- Stage DBu of PAConvectionApplyT2D: each coefficient component multiplies
the interpolated field separately, DBu[qy][qx][c] = O_c * BBu[qy][qx]. -/
def convT2dDBu {D Q : ℕ} (B : Fin Q → Fin D → real_t)
    (O : Fin Q → Fin Q → Fin 2 → real_t) (x : Fin D → Fin D → real_t)
    (qy qx : Fin Q) (c : Fin 2) : real_t :=
  O qx qy c * convT2dBBu B x qy qx

/-- Stage GDBu of PAConvectionApplyT2D: component 0 is contracted with Bt,
component 1 with Gt, along the y axis. -/
def convT2dGDBu {D Q : ℕ} (B : Fin Q → Fin D → real_t)
    (Bt Gt : Fin D → Fin Q → real_t) (O : Fin Q → Fin Q → Fin 2 → real_t)
    (x : Fin D → Fin D → real_t) (dy : Fin D) (qx : Fin Q) (c : Fin 2) : real_t :=
  if c = 0 then ∑ qy, Bt dy qy * convT2dDBu B O x qy qx 0
  else ∑ qy, Gt dy qy * convT2dDBu B O x qy qx 1

/-- The per-element contribution accumulated into y(dx,dy,e) by
PAConvectionApplyT2D: res = sum_qx Gt(dx,qx)*GDBu0 + Bt(dx,qx)*GDBu1. -/
def convT2dContrib {D Q : ℕ} (B : Fin Q → Fin D → real_t)
    (Bt Gt : Fin D → Fin Q → real_t) (O : Fin Q → Fin Q → Fin 2 → real_t)
    (x : Fin D → Fin D → real_t) (dx dy : Fin D) : real_t :=
  ∑ qx, (Gt dx qx * convT2dGDBu B Bt Gt O x dy qx 0
    + Bt dx qx * convT2dGDBu B Bt Gt O x dy qx 1)

/-- PAConvectionApplyT2D: accumulates the transpose action into y.  G is
passed but unused, as in the source (which reads only b, bt, gt). -/
def PAConvectionApplyT2D {D Q NE : ℕ} (B G : Fin Q → Fin D → real_t)
    (Bt Gt : Fin D → Fin Q → real_t)
    (op : Fin Q → Fin Q → Fin 2 → Fin NE → real_t)
    (x y : Fin D → Fin D → Fin NE → real_t) : Fin D → Fin D → Fin NE → real_t :=
  fun dx dy e =>
    y dx dy e + convT2dContrib B Bt Gt (fun qx qy c => op qx qy c e)
      (fun a b => x a b e) dx dy

/-- Stage Bu of PAConvectionApply3D. -/
def conv3dBu {D Q : ℕ} (B : Fin Q → Fin D → real_t)
    (x : Fin D → Fin D → Fin D → real_t) (dz dy : Fin D) (qx : Fin Q) : real_t :=
  ∑ dx, B qx dx * x dx dy dz

/-- Stage Gu of PAConvectionApply3D. -/
def conv3dGu {D Q : ℕ} (G : Fin Q → Fin D → real_t)
    (x : Fin D → Fin D → Fin D → real_t) (dz dy : Fin D) (qx : Fin Q) : real_t :=
  ∑ dx, G qx dx * x dx dy dz

/-- Stage BBu of PAConvectionApply3D. -/
def conv3dBBu {D Q : ℕ} (B : Fin Q → Fin D → real_t)
    (x : Fin D → Fin D → Fin D → real_t) (dz : Fin D) (qy qx : Fin Q) : real_t :=
  ∑ dy, B qy dy * conv3dBu B x dz dy qx

/-- Stage GBu of PAConvectionApply3D. -/
def conv3dGBu {D Q : ℕ} (B G : Fin Q → Fin D → real_t)
    (x : Fin D → Fin D → Fin D → real_t) (dz : Fin D) (qy qx : Fin Q) : real_t :=
  ∑ dy, G qy dy * conv3dBu B x dz dy qx

/-- Stage BGu of PAConvectionApply3D. -/
def conv3dBGu {D Q : ℕ} (B G : Fin Q → Fin D → real_t)
    (x : Fin D → Fin D → Fin D → real_t) (dz : Fin D) (qy qx : Fin Q) : real_t :=
  ∑ dy, B qy dy * conv3dGu G x dz dy qx

/-- Stage GBBu of PAConvectionApply3D: the z directional derivative. -/
def conv3dGBBu {D Q : ℕ} (B G : Fin Q → Fin D → real_t)
    (x : Fin D → Fin D → Fin D → real_t) (qz qy qx : Fin Q) : real_t :=
  ∑ dz, G qz dz * conv3dBBu B x dz qy qx

/-- Stage BGBu of PAConvectionApply3D: the y directional derivative. -/
def conv3dBGBu {D Q : ℕ} (B G : Fin Q → Fin D → real_t)
    (x : Fin D → Fin D → Fin D → real_t) (qz qy qx : Fin Q) : real_t :=
  ∑ dz, B qz dz * conv3dGBu B G x dz qy qx

/-- Stage BBGu of PAConvectionApply3D: the x directional derivative. -/
def conv3dBBGu {D Q : ℕ} (B G : Fin Q → Fin D → real_t)
    (x : Fin D → Fin D → Fin D → real_t) (qz qy qx : Fin Q) : real_t :=
  ∑ dz, B qz dz * conv3dBGu B G x dz qy qx

/-- Stage DGu of PAConvectionApply3D: DGu = O1*gradX + O2*gradY + O3*gradZ
with gradX = BBGu, gradY = BGBu, gradZ = GBBu. -/
def conv3dDGu {D Q : ℕ} (B G : Fin Q → Fin D → real_t)
    (O : Fin Q → Fin Q → Fin Q → Fin 3 → real_t)
    (x : Fin D → Fin D → Fin D → real_t) (qz qy qx : Fin Q) : real_t :=
  O qx qy qz 0 * conv3dBBGu B G x qz qy qx
    + O qx qy qz 1 * conv3dBGBu B G x qz qy qx
    + O qx qy qz 2 * conv3dGBBu B G x qz qy qx

/-- Stage BDGu of PAConvectionApply3D. -/
def conv3dBDGu {D Q : ℕ} (B G : Fin Q → Fin D → real_t) (Bt : Fin D → Fin Q → real_t)
    (O : Fin Q → Fin Q → Fin Q → Fin 3 → real_t)
    (x : Fin D → Fin D → Fin D → real_t) (dz : Fin D) (qy qx : Fin Q) : real_t :=
  ∑ qz, Bt dz qz * conv3dDGu B G O x qz qy qx

/-- Stage BBDGu of PAConvectionApply3D. -/
def conv3dBBDGu {D Q : ℕ} (B G : Fin Q → Fin D → real_t) (Bt : Fin D → Fin Q → real_t)
    (O : Fin Q → Fin Q → Fin Q → Fin 3 → real_t)
    (x : Fin D → Fin D → Fin D → real_t) (dz dy : Fin D) (qx : Fin Q) : real_t :=
  ∑ qy, Bt dy qy * conv3dBDGu B G Bt O x dz qy qx

/-- The per-element contribution BBBDGu accumulated into y(dx,dy,dz,e) by
PAConvectionApply3D. -/
def conv3dContrib {D Q : ℕ} (B G : Fin Q → Fin D → real_t) (Bt : Fin D → Fin Q → real_t)
    (O : Fin Q → Fin Q → Fin Q → Fin 3 → real_t)
    (x : Fin D → Fin D → Fin D → real_t) (dx dy dz : Fin D) : real_t :=
  ∑ qx, Bt dx qx * conv3dBBDGu B G Bt O x dz dy qx

/-- PAConvectionApply3D: adds the per-element contribution into y; op has
shape (Q1D,Q1D,Q1D,3,NE).  Gt is passed but unused, as in the source. -/
def PAConvectionApply3D {D Q NE : ℕ} (B G : Fin Q → Fin D → real_t)
    (Bt Gt : Fin D → Fin Q → real_t)
    (op : Fin Q → Fin Q → Fin Q → Fin 3 → Fin NE → real_t)
    (x y : Fin D → Fin D → Fin D → Fin NE → real_t) :
    Fin D → Fin D → Fin D → Fin NE → real_t :=
  fun dx dy dz e =>
    y dx dy dz e + conv3dContrib B G Bt (fun qx qy qz c => op qx qy qz c e)
      (fun a b c => x a b c e) dx dy dz

/-- Stage Bu of PAConvectionApplyT3D. -/
def convT3dBu {D Q : ℕ} (B : Fin Q → Fin D → real_t)
    (x : Fin D → Fin D → Fin D → real_t) (dz dy : Fin D) (qx : Fin Q) : real_t :=
  ∑ dx, B qx dx * x dx dy dz

/-- Stage BBu of PAConvectionApplyT3D. -/
def convT3dBBu {D Q : ℕ} (B : Fin Q → Fin D → real_t)
    (x : Fin D → Fin D → Fin D → real_t) (dz : Fin D) (qy qx : Fin Q) : real_t :=
  ∑ dy, B qy dy * convT3dBu B x dz dy qx

/-- Stage BBBu of PAConvectionApplyT3D: the interpolated field. -/
def convT3dBBBu {D Q : ℕ} (B : Fin Q → Fin D → real_t)
    (x : Fin D → Fin D → Fin D → real_t) (qz qy qx : Fin Q) : real_t :=
  ∑ dz, B qz dz * convT3dBBu B x dz qy qx

/-- Stage DBu of PAConvectionApplyT3D: DBu[..][c] = O_c * BBBu. -/
def convT3dDBu {D Q : ℕ} (B : Fin Q → Fin D → real_t)
    (O : Fin Q → Fin Q → Fin Q → Fin 3 → real_t)
    (x : Fin D → Fin D → Fin D → real_t) (qz qy qx : Fin Q) (c : Fin 3) : real_t :=
  O qx qy qz c * convT3dBBBu B x qz qy qx

/-- Stage GDBu of PAConvectionApplyT3D: components 0 and 1 are contracted
with Bt along z, component 2 with Gt. -/
def convT3dGDBu {D Q : ℕ} (B : Fin Q → Fin D → real_t)
    (Bt Gt : Fin D → Fin Q → real_t) (O : Fin Q → Fin Q → Fin Q → Fin 3 → real_t)
    (x : Fin D → Fin D → Fin D → real_t) (dz : Fin D) (qy qx : Fin Q)
    (c : Fin 3) : real_t :=
  if c = 2 then ∑ qz, Gt dz qz * convT3dDBu B O x qz qy qx 2
  else ∑ qz, Bt dz qz * convT3dDBu B O x qz qy qx c

/-- Stage GGDBu of PAConvectionApplyT3D: components 0 and 2 are contracted
with Bt along y, component 1 with Gt. -/
def convT3dGGDBu {D Q : ℕ} (B : Fin Q → Fin D → real_t)
    (Bt Gt : Fin D → Fin Q → real_t) (O : Fin Q → Fin Q → Fin Q → Fin 3 → real_t)
    (x : Fin D → Fin D → Fin D → real_t) (dz dy : Fin D) (qx : Fin Q)
    (c : Fin 3) : real_t :=
  if c = 1 then ∑ qy, Gt dy qy * convT3dGDBu B Bt Gt O x dz qy qx 1
  else ∑ qy, Bt dy qy * convT3dGDBu B Bt Gt O x dz qy qx c

/-- The per-element contribution accumulated into y(dx,dy,dz,e) by
PAConvectionApplyT3D: res = sum_qx gx*GGDBu0 + bx*GGDBu1 + bx*GGDBu2. -/
def convT3dContrib {D Q : ℕ} (B : Fin Q → Fin D → real_t)
    (Bt Gt : Fin D → Fin Q → real_t) (O : Fin Q → Fin Q → Fin Q → Fin 3 → real_t)
    (x : Fin D → Fin D → Fin D → real_t) (dx dy dz : Fin D) : real_t :=
  ∑ qx, (Gt dx qx * convT3dGGDBu B Bt Gt O x dz dy qx 0
    + Bt dx qx * convT3dGGDBu B Bt Gt O x dz dy qx 1
    + Bt dx qx * convT3dGGDBu B Bt Gt O x dz dy qx 2)

/-- PAConvectionApplyT3D: accumulates the transpose action into y.  G is
passed but unused, as in the source. -/
def PAConvectionApplyT3D {D Q NE : ℕ} (B G : Fin Q → Fin D → real_t)
    (Bt Gt : Fin D → Fin Q → real_t)
    (op : Fin Q → Fin Q → Fin Q → Fin 3 → Fin NE → real_t)
    (x y : Fin D → Fin D → Fin D → Fin NE → real_t) :
    Fin D → Fin D → Fin D → Fin NE → real_t :=
  fun dx dy dz e =>
    y dx dy dz e + convT3dContrib B Bt Gt (fun qx qy qz c => op qx qy qz c e)
      (fun a b c => x a b c e) dx dy dz

/- ### Shared-memory tiled kernels

The Smem kernels distribute the same loop nests over a thread grid, staging
each intermediate array in shared memory (with barriers between stages, and
in 3D reusing six scratch buffers sm0..sm5 under different logical shapes).
Each destination cell is written by exactly one thread after the staging
barrier, so the value of every cell is again given by one definition per
stage.  T_NBZ is the batching factor (elements per thread block); it only
groups elements onto z-threads and does not enter any cell value. -/

/-- Smem stage Bu: Bu[tidz][dy][qx] accumulated over dx. -/
def smem2dBu {D Q : ℕ} (B : Fin Q → Fin D → real_t) (x : Fin D → Fin D → real_t)
    (dy : Fin D) (qx : Fin Q) : real_t :=
  ∑ dx, B qx dx * x dx dy

/-- Smem stage Gu. -/
def smem2dGu {D Q : ℕ} (G : Fin Q → Fin D → real_t) (x : Fin D → Fin D → real_t)
    (dy : Fin D) (qx : Fin Q) : real_t :=
  ∑ dx, G qx dx * x dx dy

/-- Smem stage GBu. -/
def smem2dGBu {D Q : ℕ} (B G : Fin Q → Fin D → real_t) (x : Fin D → Fin D → real_t)
    (qy qx : Fin Q) : real_t :=
  ∑ dy, G qy dy * smem2dBu B x dy qx

/-- Smem stage BGu. -/
def smem2dBGu {D Q : ℕ} (B G : Fin Q → Fin D → real_t) (x : Fin D → Fin D → real_t)
    (qy qx : Fin Q) : real_t :=
  ∑ dy, B qy dy * smem2dGu G x dy qx

/-- Smem stage DGu. -/
def smem2dDGu {D Q : ℕ} (B G : Fin Q → Fin D → real_t)
    (O : Fin Q → Fin Q → Fin 2 → real_t) (x : Fin D → Fin D → real_t)
    (qy qx : Fin Q) : real_t :=
  O qx qy 0 * smem2dBGu B G x qy qx + O qx qy 1 * smem2dGBu B G x qy qx

/-- Smem stage BDGu. -/
def smem2dBDGu {D Q : ℕ} (B G : Fin Q → Fin D → real_t) (Bt : Fin D → Fin Q → real_t)
    (O : Fin Q → Fin Q → Fin 2 → real_t) (x : Fin D → Fin D → real_t)
    (dy : Fin D) (qx : Fin Q) : real_t :=
  ∑ qy, Bt dy qy * smem2dDGu B G O x qy qx

/-- Smem per-element contribution BBDGu. -/
def smem2dContrib {D Q : ℕ} (B G : Fin Q → Fin D → real_t) (Bt : Fin D → Fin Q → real_t)
    (O : Fin Q → Fin Q → Fin 2 → real_t) (x : Fin D → Fin D → real_t)
    (dx dy : Fin D) : real_t :=
  ∑ qx, Bt dx qx * smem2dBDGu B G Bt O x dy qx

/-- SmemPAConvectionApply2D: the shared-memory tiled forward 2D kernel with
batching factor NBZ. -/
def SmemPAConvectionApply2D {D Q NE : ℕ} (NBZ : ℕ) (B G : Fin Q → Fin D → real_t)
    (Bt Gt : Fin D → Fin Q → real_t)
    (op : Fin Q → Fin Q → Fin 2 → Fin NE → real_t)
    (x y : Fin D → Fin D → Fin NE → real_t) : Fin D → Fin D → Fin NE → real_t :=
  fun dx dy e =>
    y dx dy e + smem2dContrib B G Bt (fun qx qy c => op qx qy c e)
      (fun a b => x a b e) dx dy

/-- Smem transpose stage Bu. -/
def smemT2dBu {D Q : ℕ} (B : Fin Q → Fin D → real_t) (x : Fin D → Fin D → real_t)
    (dy : Fin D) (qx : Fin Q) : real_t :=
  ∑ dx, B qx dx * x dx dy

/-- Smem transpose stage BBu. -/
def smemT2dBBu {D Q : ℕ} (B : Fin Q → Fin D → real_t) (x : Fin D → Fin D → real_t)
    (qy qx : Fin Q) : real_t :=
  ∑ dy, B qy dy * smemT2dBu B x dy qx

/-- Smem transpose stage DBu. -/
def smemT2dDBu {D Q : ℕ} (B : Fin Q → Fin D → real_t)
    (O : Fin Q → Fin Q → Fin 2 → real_t) (x : Fin D → Fin D → real_t)
    (qy qx : Fin Q) (c : Fin 2) : real_t :=
  O qx qy c * smemT2dBBu B x qy qx

/-- Smem transpose stage GDBu. -/
def smemT2dGDBu {D Q : ℕ} (B : Fin Q → Fin D → real_t)
    (Bt Gt : Fin D → Fin Q → real_t) (O : Fin Q → Fin Q → Fin 2 → real_t)
    (x : Fin D → Fin D → real_t) (dy : Fin D) (qx : Fin Q) (c : Fin 2) : real_t :=
  if c = 0 then ∑ qy, Bt dy qy * smemT2dDBu B O x qy qx 0
  else ∑ qy, Gt dy qy * smemT2dDBu B O x qy qx 1

/-- Smem transpose per-element contribution. -/
def smemT2dContrib {D Q : ℕ} (B : Fin Q → Fin D → real_t)
    (Bt Gt : Fin D → Fin Q → real_t) (O : Fin Q → Fin Q → Fin 2 → real_t)
    (x : Fin D → Fin D → real_t) (dx dy : Fin D) : real_t :=
  ∑ qx, (Gt dx qx * smemT2dGDBu B Bt Gt O x dy qx 0
    + Bt dx qx * smemT2dGDBu B Bt Gt O x dy qx 1)

/-- SmemPAConvectionApplyT2D: the shared-memory tiled transpose 2D kernel
with batching factor NBZ. -/
def SmemPAConvectionApplyT2D {D Q NE : ℕ} (NBZ : ℕ) (B G : Fin Q → Fin D → real_t)
    (Bt Gt : Fin D → Fin Q → real_t)
    (op : Fin Q → Fin Q → Fin 2 → Fin NE → real_t)
    (x y : Fin D → Fin D → Fin NE → real_t) : Fin D → Fin D → Fin NE → real_t :=
  fun dx dy e =>
    y dx dy e + smemT2dContrib B Bt Gt (fun qx qy c => op qx qy c e)
      (fun a b => x a b e) dx dy

/-- Smem 3D stage Bu (register accumulators Bu_, Gu_ stored to sm1, sm2). -/
def smem3dBu {D Q : ℕ} (B : Fin Q → Fin D → real_t)
    (x : Fin D → Fin D → Fin D → real_t) (dz dy : Fin D) (qx : Fin Q) : real_t :=
  ∑ dx, B qx dx * x dx dy dz

/-- Smem 3D stage Gu. -/
def smem3dGu {D Q : ℕ} (G : Fin Q → Fin D → real_t)
    (x : Fin D → Fin D → Fin D → real_t) (dz dy : Fin D) (qx : Fin Q) : real_t :=
  ∑ dx, G qx dx * x dx dy dz

/-- Smem 3D stage BBu. -/
def smem3dBBu {D Q : ℕ} (B : Fin Q → Fin D → real_t)
    (x : Fin D → Fin D → Fin D → real_t) (dz : Fin D) (qy qx : Fin Q) : real_t :=
  ∑ dy, B qy dy * smem3dBu B x dz dy qx

/-- Smem 3D stage GBu. -/
def smem3dGBu {D Q : ℕ} (B G : Fin Q → Fin D → real_t)
    (x : Fin D → Fin D → Fin D → real_t) (dz : Fin D) (qy qx : Fin Q) : real_t :=
  ∑ dy, G qy dy * smem3dBu B x dz dy qx

/-- Smem 3D stage BGu. -/
def smem3dBGu {D Q : ℕ} (B G : Fin Q → Fin D → real_t)
    (x : Fin D → Fin D → Fin D → real_t) (dz : Fin D) (qy qx : Fin Q) : real_t :=
  ∑ dy, B qy dy * smem3dGu G x dz dy qx

/-- Smem 3D stage GBBu (stored back into the reused buffer sm0). -/
def smem3dGBBu {D Q : ℕ} (B G : Fin Q → Fin D → real_t)
    (x : Fin D → Fin D → Fin D → real_t) (qz qy qx : Fin Q) : real_t :=
  ∑ dz, G qz dz * smem3dBBu B x dz qy qx

/-- Smem 3D stage BGBu. -/
def smem3dBGBu {D Q : ℕ} (B G : Fin Q → Fin D → real_t)
    (x : Fin D → Fin D → Fin D → real_t) (qz qy qx : Fin Q) : real_t :=
  ∑ dz, B qz dz * smem3dGBu B G x dz qy qx

/-- Smem 3D stage BBGu. -/
def smem3dBBGu {D Q : ℕ} (B G : Fin Q → Fin D → real_t)
    (x : Fin D → Fin D → Fin D → real_t) (qz qy qx : Fin Q) : real_t :=
  ∑ dz, B qz dz * smem3dBGu B G x dz qy qx

/-- Smem 3D stage DGu. -/
def smem3dDGu {D Q : ℕ} (B G : Fin Q → Fin D → real_t)
    (O : Fin Q → Fin Q → Fin Q → Fin 3 → real_t)
    (x : Fin D → Fin D → Fin D → real_t) (qz qy qx : Fin Q) : real_t :=
  O qx qy qz 0 * smem3dBBGu B G x qz qy qx
    + O qx qy qz 1 * smem3dBGBu B G x qz qy qx
    + O qx qy qz 2 * smem3dGBBu B G x qz qy qx

/-- Smem 3D stage BDGu. -/
def smem3dBDGu {D Q : ℕ} (B G : Fin Q → Fin D → real_t) (Bt : Fin D → Fin Q → real_t)
    (O : Fin Q → Fin Q → Fin Q → Fin 3 → real_t)
    (x : Fin D → Fin D → Fin D → real_t) (dz : Fin D) (qy qx : Fin Q) : real_t :=
  ∑ qz, Bt dz qz * smem3dDGu B G O x qz qy qx

/-- Smem 3D stage BBDGu. -/
def smem3dBBDGu {D Q : ℕ} (B G : Fin Q → Fin D → real_t) (Bt : Fin D → Fin Q → real_t)
    (O : Fin Q → Fin Q → Fin Q → Fin 3 → real_t)
    (x : Fin D → Fin D → Fin D → real_t) (dz dy : Fin D) (qx : Fin Q) : real_t :=
  ∑ qy, Bt dy qy * smem3dBDGu B G Bt O x dz qy qx

/-- Smem 3D per-element contribution BBBDGu. -/
def smem3dContrib {D Q : ℕ} (B G : Fin Q → Fin D → real_t) (Bt : Fin D → Fin Q → real_t)
    (O : Fin Q → Fin Q → Fin Q → Fin 3 → real_t)
    (x : Fin D → Fin D → Fin D → real_t) (dx dy dz : Fin D) : real_t :=
  ∑ qx, Bt dx qx * smem3dBBDGu B G Bt O x dz dy qx

/-- SmemPAConvectionApply3D: the shared-memory tiled forward 3D kernel. -/
def SmemPAConvectionApply3D {D Q NE : ℕ} (B G : Fin Q → Fin D → real_t)
    (Bt Gt : Fin D → Fin Q → real_t)
    (op : Fin Q → Fin Q → Fin Q → Fin 3 → Fin NE → real_t)
    (x y : Fin D → Fin D → Fin D → Fin NE → real_t) :
    Fin D → Fin D → Fin D → Fin NE → real_t :=
  fun dx dy dz e =>
    y dx dy dz e + smem3dContrib B G Bt (fun qx qy qz c => op qx qy qz c e)
      (fun a b c => x a b c e) dx dy dz

/-- Smem 3D transpose stage Bu. -/
def smemT3dBu {D Q : ℕ} (B : Fin Q → Fin D → real_t)
    (x : Fin D → Fin D → Fin D → real_t) (dz dy : Fin D) (qx : Fin Q) : real_t :=
  ∑ dx, B qx dx * x dx dy dz

/-- Smem 3D transpose stage BBu. -/
def smemT3dBBu {D Q : ℕ} (B : Fin Q → Fin D → real_t)
    (x : Fin D → Fin D → Fin D → real_t) (dz : Fin D) (qy qx : Fin Q) : real_t :=
  ∑ dy, B qy dy * smemT3dBu B x dz dy qx

/-- Smem 3D transpose stage BBBu. -/
def smemT3dBBBu {D Q : ℕ} (B : Fin Q → Fin D → real_t)
    (x : Fin D → Fin D → Fin D → real_t) (qz qy qx : Fin Q) : real_t :=
  ∑ dz, B qz dz * smemT3dBBu B x dz qy qx

/-- Smem 3D transpose stage DBu. -/
def smemT3dDBu {D Q : ℕ} (B : Fin Q → Fin D → real_t)
    (O : Fin Q → Fin Q → Fin Q → Fin 3 → real_t)
    (x : Fin D → Fin D → Fin D → real_t) (qz qy qx : Fin Q) (c : Fin 3) : real_t :=
  O qx qy qz c * smemT3dBBBu B x qz qy qx

/-- Smem 3D transpose stage GDBu (register accumulators GDBu0..GDBu2). -/
def smemT3dGDBu {D Q : ℕ} (B : Fin Q → Fin D → real_t)
    (Bt Gt : Fin D → Fin Q → real_t) (O : Fin Q → Fin Q → Fin Q → Fin 3 → real_t)
    (x : Fin D → Fin D → Fin D → real_t) (dz : Fin D) (qy qx : Fin Q)
    (c : Fin 3) : real_t :=
  if c = 2 then ∑ qz, Gt dz qz * smemT3dDBu B O x qz qy qx 2
  else ∑ qz, Bt dz qz * smemT3dDBu B O x qz qy qx c

/-- Smem 3D transpose stage GGDBu. -/
def smemT3dGGDBu {D Q : ℕ} (B : Fin Q → Fin D → real_t)
    (Bt Gt : Fin D → Fin Q → real_t) (O : Fin Q → Fin Q → Fin Q → Fin 3 → real_t)
    (x : Fin D → Fin D → Fin D → real_t) (dz dy : Fin D) (qx : Fin Q)
    (c : Fin 3) : real_t :=
  if c = 1 then ∑ qy, Gt dy qy * smemT3dGDBu B Bt Gt O x dz qy qx 1
  else ∑ qy, Bt dy qy * smemT3dGDBu B Bt Gt O x dz qy qx c

/-- Smem 3D transpose per-element contribution. -/
def smemT3dContrib {D Q : ℕ} (B : Fin Q → Fin D → real_t)
    (Bt Gt : Fin D → Fin Q → real_t) (O : Fin Q → Fin Q → Fin Q → Fin 3 → real_t)
    (x : Fin D → Fin D → Fin D → real_t) (dx dy dz : Fin D) : real_t :=
  ∑ qx, (Gt dx qx * smemT3dGGDBu B Bt Gt O x dz dy qx 0
    + Bt dx qx * smemT3dGGDBu B Bt Gt O x dz dy qx 1
    + Bt dx qx * smemT3dGGDBu B Bt Gt O x dz dy qx 2)

/-- SmemPAConvectionApplyT3D: the shared-memory tiled transpose 3D kernel. -/
def SmemPAConvectionApplyT3D {D Q NE : ℕ} (B G : Fin Q → Fin D → real_t)
    (Bt Gt : Fin D → Fin Q → real_t)
    (op : Fin Q → Fin Q → Fin Q → Fin 3 → Fin NE → real_t)
    (x y : Fin D → Fin D → Fin D → Fin NE → real_t) :
    Fin D → Fin D → Fin D → Fin NE → real_t :=
  fun dx dy dz e =>
    y dx dy dz e + smemT3dContrib B Bt Gt (fun qx qy qz c => op qx qy qz c e)
      (fun a b c => x a b c e) dx dy dz

/- ### Dispatch catalogue

PAConvectionApply and PAConvectionApplyT switch on (D1D << 4) | Q1D and call
a compile-time specialized shared-memory kernel for the listed pairs, with
the listed batching factor NBZ in 2D; every other pair falls back to the
runtime-parameterized generic kernel. -/

/-- The (D1D,Q1D) pairs with a specialized 2D kernel instantiation. -/
def convCat2D : List (ℕ × ℕ) :=
  [(2,2),(3,3),(3,4),(4,4),(4,6),(5,5),(5,8),(6,6),(7,7),(8,8),(9,9)]

/-- Batching factor NBZ of the specialized 2D kernels: 8 for D1D=2, 4 for
D1D=3 and 4, 2 for D1D=5, else 1. -/
def conv2dNBZ (D : ℕ) : ℕ :=
  if D = 2 then 8 else if D = 3 then 4 else if D = 4 then 4
  else if D = 5 then 2 else 1

/-- The (D1D,Q1D) pairs with a specialized 3D kernel instantiation. -/
def convCat3D : List (ℕ × ℕ) :=
  [(2,2),(2,3),(2,4),(2,6),(3,4),(3,5),(4,5),(4,8),(5,6),(6,7),(7,8),(8,9)]

/- ### Flat-buffer views and the checked dispatch layer

The kernel launchers take flat vectors; Reshape views are index
computations.  MFEM_VERIFY(D1D <= MAX_D1D) and MFEM_VERIFY(Q1D <= MAX_Q1D)
guard every kernel before the element loop runs; a failed check aborts with
no output, modelled as none.  The platform limits MAX_D1D and MAX_Q1D come
from the device (forall.hpp, outside this translation unit) and are kept as
parameters maxD, maxQ. -/

/-- Reshape view of a basis table of shape (Q1D,D1D). -/
def flatB (D Q : ℕ) (b : ℕ → real_t) : Fin Q → Fin D → real_t :=
  fun qq d => b ((qq : ℕ) + Q * (d : ℕ))

/-- Reshape view of a transposed basis table of shape (D1D,Q1D). -/
def flatBt (D Q : ℕ) (bt : ℕ → real_t) : Fin D → Fin Q → real_t :=
  fun d qq => bt ((d : ℕ) + D * (qq : ℕ))

/-- Reshape view of the 2D coefficient buffer, shape (Q1D,Q1D,2,NE). -/
def flatOp2 (Q NE : ℕ) (op : ℕ → real_t) : Fin Q → Fin Q → Fin 2 → Fin NE → real_t :=
  fun qx qy c e => op ((qx : ℕ) + Q * ((qy : ℕ) + Q * ((c : ℕ) + 2 * (e : ℕ))))

/-- Reshape view of the 3D coefficient buffer, shape (Q1D,Q1D,Q1D,3,NE). -/
def flatOp3 (Q NE : ℕ) (op : ℕ → real_t) :
    Fin Q → Fin Q → Fin Q → Fin 3 → Fin NE → real_t :=
  fun qx qy qz c e =>
    op ((qx : ℕ) + Q * ((qy : ℕ) + Q * ((qz : ℕ) + Q * ((c : ℕ) + 3 * (e : ℕ)))))

/-- Reshape view of a 2D dof vector, shape (D1D,D1D,NE). -/
def flatX2 (D NE : ℕ) (x : ℕ → real_t) : Fin D → Fin D → Fin NE → real_t :=
  fun a b e => x ((a : ℕ) + D * ((b : ℕ) + D * (e : ℕ)))

/-- Reshape view of a 3D dof vector, shape (D1D,D1D,D1D,NE). -/
def flatX3 (D NE : ℕ) (x : ℕ → real_t) : Fin D → Fin D → Fin D → Fin NE → real_t :=
  fun a b c e => x ((a : ℕ) + D * ((b : ℕ) + D * ((c : ℕ) + D * (e : ℕ))))

/-- The generic 2D forward kernel on flat buffers: in-range entries of y
receive their accumulated value, everything else is untouched. -/
def PAConvectionApply2DFlat (D Q NE : ℕ) (b g bt gt op x y : ℕ → real_t) :
    ℕ → real_t :=
  fun i =>
    if h : i < D * D * NE then
      PAConvectionApply2D (flatB D Q b) (flatB D Q g) (flatBt D Q bt) (flatBt D Q gt)
        (flatOp2 Q NE op) (flatX2 D NE x) (flatX2 D NE y)
        ⟨i % D, Nat.mod_lt _ (Nat.pos_of_ne_zero (by rintro rfl; simp at h))⟩
        ⟨i / D % D, Nat.mod_lt _ (Nat.pos_of_ne_zero (by rintro rfl; simp at h))⟩
        ⟨i / (D * D), Nat.div_lt_of_lt_mul h⟩
    else y i

/-- The shared-memory 2D forward kernel on flat buffers. -/
def SmemPAConvectionApply2DFlat (NBZ D Q NE : ℕ) (b g bt gt op x y : ℕ → real_t) :
    ℕ → real_t :=
  fun i =>
    if h : i < D * D * NE then
      SmemPAConvectionApply2D NBZ (flatB D Q b) (flatB D Q g) (flatBt D Q bt)
        (flatBt D Q gt) (flatOp2 Q NE op) (flatX2 D NE x) (flatX2 D NE y)
        ⟨i % D, Nat.mod_lt _ (Nat.pos_of_ne_zero (by rintro rfl; simp at h))⟩
        ⟨i / D % D, Nat.mod_lt _ (Nat.pos_of_ne_zero (by rintro rfl; simp at h))⟩
        ⟨i / (D * D), Nat.div_lt_of_lt_mul h⟩
    else y i

/-- The generic 2D transpose kernel on flat buffers. -/
def PAConvectionApplyT2DFlat (D Q NE : ℕ) (b g bt gt op x y : ℕ → real_t) :
    ℕ → real_t :=
  fun i =>
    if h : i < D * D * NE then
      PAConvectionApplyT2D (flatB D Q b) (flatB D Q g) (flatBt D Q bt) (flatBt D Q gt)
        (flatOp2 Q NE op) (flatX2 D NE x) (flatX2 D NE y)
        ⟨i % D, Nat.mod_lt _ (Nat.pos_of_ne_zero (by rintro rfl; simp at h))⟩
        ⟨i / D % D, Nat.mod_lt _ (Nat.pos_of_ne_zero (by rintro rfl; simp at h))⟩
        ⟨i / (D * D), Nat.div_lt_of_lt_mul h⟩
    else y i

/-- The shared-memory 2D transpose kernel on flat buffers. -/
def SmemPAConvectionApplyT2DFlat (NBZ D Q NE : ℕ) (b g bt gt op x y : ℕ → real_t) :
    ℕ → real_t :=
  fun i =>
    if h : i < D * D * NE then
      SmemPAConvectionApplyT2D NBZ (flatB D Q b) (flatB D Q g) (flatBt D Q bt)
        (flatBt D Q gt) (flatOp2 Q NE op) (flatX2 D NE x) (flatX2 D NE y)
        ⟨i % D, Nat.mod_lt _ (Nat.pos_of_ne_zero (by rintro rfl; simp at h))⟩
        ⟨i / D % D, Nat.mod_lt _ (Nat.pos_of_ne_zero (by rintro rfl; simp at h))⟩
        ⟨i / (D * D), Nat.div_lt_of_lt_mul h⟩
    else y i

/-- The generic 3D forward kernel on flat buffers. -/
def PAConvectionApply3DFlat (D Q NE : ℕ) (b g bt gt op x y : ℕ → real_t) :
    ℕ → real_t :=
  fun i =>
    if h : i < D * D * D * NE then
      PAConvectionApply3D (flatB D Q b) (flatB D Q g) (flatBt D Q bt) (flatBt D Q gt)
        (flatOp3 Q NE op) (flatX3 D NE x) (flatX3 D NE y)
        ⟨i % D, Nat.mod_lt _ (Nat.pos_of_ne_zero (by rintro rfl; simp at h))⟩
        ⟨i / D % D, Nat.mod_lt _ (Nat.pos_of_ne_zero (by rintro rfl; simp at h))⟩
        ⟨i / (D * D) % D, Nat.mod_lt _ (Nat.pos_of_ne_zero (by rintro rfl; simp at h))⟩
        ⟨i / (D * D * D), Nat.div_lt_of_lt_mul h⟩
    else y i

/-- The shared-memory 3D forward kernel on flat buffers. -/
def SmemPAConvectionApply3DFlat (D Q NE : ℕ) (b g bt gt op x y : ℕ → real_t) :
    ℕ → real_t :=
  fun i =>
    if h : i < D * D * D * NE then
      SmemPAConvectionApply3D (flatB D Q b) (flatB D Q g) (flatBt D Q bt)
        (flatBt D Q gt) (flatOp3 Q NE op) (flatX3 D NE x) (flatX3 D NE y)
        ⟨i % D, Nat.mod_lt _ (Nat.pos_of_ne_zero (by rintro rfl; simp at h))⟩
        ⟨i / D % D, Nat.mod_lt _ (Nat.pos_of_ne_zero (by rintro rfl; simp at h))⟩
        ⟨i / (D * D) % D, Nat.mod_lt _ (Nat.pos_of_ne_zero (by rintro rfl; simp at h))⟩
        ⟨i / (D * D * D), Nat.div_lt_of_lt_mul h⟩
    else y i

/-- The generic 3D transpose kernel on flat buffers. -/
def PAConvectionApplyT3DFlat (D Q NE : ℕ) (b g bt gt op x y : ℕ → real_t) :
    ℕ → real_t :=
  fun i =>
    if h : i < D * D * D * NE then
      PAConvectionApplyT3D (flatB D Q b) (flatB D Q g) (flatBt D Q bt) (flatBt D Q gt)
        (flatOp3 Q NE op) (flatX3 D NE x) (flatX3 D NE y)
        ⟨i % D, Nat.mod_lt _ (Nat.pos_of_ne_zero (by rintro rfl; simp at h))⟩
        ⟨i / D % D, Nat.mod_lt _ (Nat.pos_of_ne_zero (by rintro rfl; simp at h))⟩
        ⟨i / (D * D) % D, Nat.mod_lt _ (Nat.pos_of_ne_zero (by rintro rfl; simp at h))⟩
        ⟨i / (D * D * D), Nat.div_lt_of_lt_mul h⟩
    else y i

/-- The shared-memory 3D transpose kernel on flat buffers. -/
def SmemPAConvectionApplyT3DFlat (D Q NE : ℕ) (b g bt gt op x y : ℕ → real_t) :
    ℕ → real_t :=
  fun i =>
    if h : i < D * D * D * NE then
      SmemPAConvectionApplyT3D (flatB D Q b) (flatB D Q g) (flatBt D Q bt)
        (flatBt D Q gt) (flatOp3 Q NE op) (flatX3 D NE x) (flatX3 D NE y)
        ⟨i % D, Nat.mod_lt _ (Nat.pos_of_ne_zero (by rintro rfl; simp at h))⟩
        ⟨i / D % D, Nat.mod_lt _ (Nat.pos_of_ne_zero (by rintro rfl; simp at h))⟩
        ⟨i / (D * D) % D, Nat.mod_lt _ (Nat.pos_of_ne_zero (by rintro rfl; simp at h))⟩
        ⟨i / (D * D * D), Nat.div_lt_of_lt_mul h⟩
    else y i

/-- The MFEM_VERIFY platform-limit check guarding each kernel: the kernel
body runs only when its D1D and Q1D are within the device maxima, else the
run aborts with no output.  In a compile-time specialized kernel D1D and Q1D
are the template values, not the runtime pair the dispatcher was called
with. -/
def convChecked (maxD maxQ D Q : ℕ) (body : ℕ → real_t) : Option (ℕ → real_t) :=
  if D ≤ maxD ∧ Q ≤ maxQ then some body else none

/-- The packed dispatch key (D1D << 4) | Q1D the source switches on.  For
Q1D at least 16 the bitwise or mixes the two fields, so distinct runtime
pairs can produce the same key (for example D1D=2, Q1D=19 gives 0x33, the
key of the (3,3) specialization). -/
def convKey (D Q : ℕ) : ℕ := Nat.lor (D <<< 4) Q

/-- The 2D switch-case table: key to (T_D1D, T_Q1D, T_NBZ) of the selected
specialized kernel instantiation; none means the default generic fallback. -/
def conv2dSpec (k : ℕ) : Option (ℕ × ℕ × ℕ) :=
  if k = 0x22 then some (2, 2, 8)
  else if k = 0x33 then some (3, 3, 4)
  else if k = 0x34 then some (3, 4, 4)
  else if k = 0x44 then some (4, 4, 4)
  else if k = 0x46 then some (4, 6, 4)
  else if k = 0x55 then some (5, 5, 2)
  else if k = 0x58 then some (5, 8, 2)
  else if k = 0x66 then some (6, 6, 1)
  else if k = 0x77 then some (7, 7, 1)
  else if k = 0x88 then some (8, 8, 1)
  else if k = 0x99 then some (9, 9, 1)
  else none

/-- The 3D switch-case table: key to (T_D1D, T_Q1D) of the selected
specialized kernel instantiation; none means the default generic fallback. -/
def conv3dSpec (k : ℕ) : Option (ℕ × ℕ) :=
  if k = 0x22 then some (2, 2)
  else if k = 0x23 then some (2, 3)
  else if k = 0x24 then some (2, 4)
  else if k = 0x26 then some (2, 6)
  else if k = 0x34 then some (3, 4)
  else if k = 0x35 then some (3, 5)
  else if k = 0x45 then some (4, 5)
  else if k = 0x48 then some (4, 8)
  else if k = 0x56 then some (5, 6)
  else if k = 0x67 then some (6, 7)
  else if k = 0x78 then some (7, 8)
  else if k = 0x89 then some (8, 9)
  else none

/-- PAConvectionApply, the forward dispatch layer: for dim 2 or 3 it
switches on the packed key (D1D << 4) | Q1D; a catalogued key selects the
compile-time specialized shared-memory kernel, which runs with its template
sizes and checks those template sizes against the platform limits; every
other key takes the generic fallback parameterized and checked at the
runtime D1D, Q1D; any other dim aborts (MFEM_ABORT, unknown kernel). -/
def PAConvectionApply (maxD maxQ dim D Q NE : ℕ) (b g bt gt op x y : ℕ → real_t) :
    Option (ℕ → real_t) :=
  if dim = 2 then
    (conv2dSpec (convKey D Q)).elim
      (convChecked maxD maxQ D Q (PAConvectionApply2DFlat D Q NE b g bt gt op x y))
      (fun s => convChecked maxD maxQ s.1 s.2.1
        (SmemPAConvectionApply2DFlat s.2.2 s.1 s.2.1 NE b g bt gt op x y))
  else if dim = 3 then
    (conv3dSpec (convKey D Q)).elim
      (convChecked maxD maxQ D Q (PAConvectionApply3DFlat D Q NE b g bt gt op x y))
      (fun s => convChecked maxD maxQ s.1 s.2
        (SmemPAConvectionApply3DFlat s.1 s.2 NE b g bt gt op x y))
  else none

/-- PAConvectionApplyT, the transpose dispatch layer, with the same packed
switch key and catalogue as the forward layer. -/
def PAConvectionApplyT (maxD maxQ dim D Q NE : ℕ) (b g bt gt op x y : ℕ → real_t) :
    Option (ℕ → real_t) :=
  if dim = 2 then
    (conv2dSpec (convKey D Q)).elim
      (convChecked maxD maxQ D Q (PAConvectionApplyT2DFlat D Q NE b g bt gt op x y))
      (fun s => convChecked maxD maxQ s.1 s.2.1
        (SmemPAConvectionApplyT2DFlat s.2.2 s.1 s.2.1 NE b g bt gt op x y))
  else if dim = 3 then
    (conv3dSpec (convKey D Q)).elim
      (convChecked maxD maxQ D Q (PAConvectionApplyT3DFlat D Q NE b g bt gt op x y))
      (fun s => convChecked maxD maxQ s.1 s.2
        (SmemPAConvectionApplyT3DFlat s.1 s.2 NE b g bt gt op x y))
  else none

/- ### Dot products over the dof tensors -/

/-- Dot product of two 2D dof tensors over all elements. -/
def dot2 {D NE : ℕ} (f g : Fin D → Fin D → Fin NE → real_t) : real_t :=
  ∑ e, ∑ dx, ∑ dy, f dx dy e * g dx dy e

/-- Dot product of two 3D dof tensors over all elements. -/
def dot3 {D NE : ℕ} (f g : Fin D → Fin D → Fin D → Fin NE → real_t) : real_t :=
  ∑ e, ∑ dx, ∑ dy, ∑ dz, f dx dy dz e * g dx dy dz e

/-! ## Lemmas and claim theorems -/

/- ### Index decoding for flat buffers

Reshape(v, N1, N2, N3) gives v(a,b,c) at linear index a + N1*(b + N2*c).
The Setup output buffer op has shape (NQ, DIM, NE), so entry (q,c,e) lives
at q + NQ*c + NQ*DIM*e.  The following lemma inverts that encoding. -/

lemma flat_decode {NQ DIM NE q c e : ℕ} (hq : q < NQ) (hc : c < DIM) (he : e < NE) :
    q + NQ * c + NQ * DIM * e < NQ * DIM * NE ∧
    (q + NQ * c + NQ * DIM * e) % NQ = q ∧
    (q + NQ * c + NQ * DIM * e) / NQ % DIM = c ∧
    (q + NQ * c + NQ * DIM * e) / (NQ * DIM) = e := by
  have hNQ : 0 < NQ := Nat.pos_of_ne_zero (by intro h; subst h; exact Nat.not_lt_zero q hq)
  have hpair : q + NQ * c < NQ * DIM := by
    have h1 : q + NQ * c < NQ + NQ * c := Nat.add_lt_add_right hq _
    have h2 : NQ + NQ * c = NQ * (c + 1) := by ring
    have h3 : NQ * (c + 1) ≤ NQ * DIM := Nat.mul_le_mul_left _ hc
    omega
  refine ⟨?_, ?_, ?_, ?_⟩
  · have h0 : q + NQ * c + NQ * DIM * e < NQ * DIM + NQ * DIM * e :=
      Nat.add_lt_add_right hpair _
    have h1 : NQ * DIM + NQ * DIM * e = NQ * DIM * (e + 1) := by ring
    have h2 : NQ * DIM * (e + 1) ≤ NQ * DIM * NE := Nat.mul_le_mul_left _ he
    omega
  · have h0 : q + NQ * c + NQ * DIM * e = q + NQ * (c + DIM * e) := by ring
    rw [h0, Nat.add_mul_mod_self_left, Nat.mod_eq_of_lt hq]
  · have h0 : q + NQ * c + NQ * DIM * e = q + NQ * (c + DIM * e) := by ring
    rw [h0, Nat.add_mul_div_left _ _ hNQ, Nat.div_eq_of_lt hq, Nat.zero_add,
      Nat.add_mul_mod_self_left, Nat.mod_eq_of_lt hc]
  · have h0 : q + NQ * c + NQ * DIM * e = (q + NQ * c) + (NQ * DIM) * e := by ring
    rw [h0, Nat.add_mul_div_left _ _ (Nat.mul_pos hNQ (by omega)),
      Nat.div_eq_of_lt hpair, Nat.zero_add]

/-- Reading back the in-range entry (q,c,e) of the 2D Setup output buffer
yields the kernel loop body value. -/
lemma PAConvectionSetup2D_entry (NQ NE : ℕ) (W j : ℕ → real_t) (velSize : ℕ)
    (vel : ℕ → real_t) (alpha : real_t) (op : ℕ → real_t) {q e : ℕ} (c : Fin 2)
    (hq : q < NQ) (he : e < NE) :
    PAConvectionSetup2D NQ NE W j velSize vel alpha op (q + NQ * (c : ℕ) + NQ * 2 * e)
      = conv2dSetupVal NQ W j velSize vel alpha q e c := by
  obtain ⟨h1, h2, h3, h4⟩ := flat_decode hq c.isLt he
  unfold PAConvectionSetup2D
  rw [if_pos h1]
  simp only [h2, h3, h4, Fin.eta]

/-- Reading back the in-range entry (q,c,e) of the 3D Setup output buffer
yields the kernel loop body value. -/
lemma PAConvectionSetup3D_entry (NQ NE : ℕ) (W j : ℕ → real_t) (velSize : ℕ)
    (vel : ℕ → real_t) (alpha : real_t) (op : ℕ → real_t) {q e : ℕ} (c : Fin 3)
    (hq : q < NQ) (he : e < NE) :
    PAConvectionSetup3D NQ NE W j velSize vel alpha op (q + NQ * (c : ℕ) + NQ * 3 * e)
      = conv3dSetupVal NQ W j velSize vel alpha q e c := by
  obtain ⟨h1, h2, h3, h4⟩ := flat_decode hq c.isLt he
  unfold PAConvectionSetup3D
  rw [if_pos h1]
  simp only [h2, h3, h4, Fin.eta]

/-- C1: for every in-range quadrature point q and element e, the 2D Setup
kernel stores at (q,0,e) the value wx*J22 - wy*J12 and at (q,1,e) the value
-wx*J21 + wy*J11, with wx = alpha*W(q)*v0 and wy = alpha*W(q)*v1 where
(v0,v1) is the velocity sample (the constant vector when the velocity is
uniform), and the stored pair is exactly adj(J) applied to alpha*W(q)*v. -/
theorem C1_setup2d_adjugate (NQ NE : ℕ) (W j : ℕ → real_t) (velSize : ℕ)
    (vel : ℕ → real_t) (alpha : real_t) (op : ℕ → real_t) (q e : ℕ)
    (hq : q < NQ) (he : e < NE) :
    (PAConvectionSetup2D NQ NE W j velSize vel alpha op (q + NQ * 0 + NQ * 2 * e)
        = alpha * W q * conv2dVel NQ velSize vel q e 0 * conv2dJmat NQ j q e 1 1
          - alpha * W q * conv2dVel NQ velSize vel q e 1 * conv2dJmat NQ j q e 0 1
      ∧ PAConvectionSetup2D NQ NE W j velSize vel alpha op (q + NQ * 1 + NQ * 2 * e)
        = -(alpha * W q * conv2dVel NQ velSize vel q e 0 * conv2dJmat NQ j q e 1 0)
          + alpha * W q * conv2dVel NQ velSize vel q e 1 * conv2dJmat NQ j q e 0 0)
    ∧ ∀ c : Fin 2,
        PAConvectionSetup2D NQ NE W j velSize vel alpha op (q + NQ * (c : ℕ) + NQ * 2 * e)
          = (Matrix.adjugate (conv2dJmat NQ j q e)).mulVec
              (fun i => alpha * W q * conv2dVel NQ velSize vel q e i) c := by
  have key : ∀ c : Fin 2,
      PAConvectionSetup2D NQ NE W j velSize vel alpha op (q + NQ * (c : ℕ) + NQ * 2 * e)
        = conv2dSetupVal NQ W j velSize vel alpha q e c :=
    fun c => PAConvectionSetup2D_entry NQ NE W j velSize vel alpha op c hq he
  refine ⟨⟨?_, ?_⟩, ?_⟩
  · have h0 := key 0
    simp only [Fin.val_zero] at h0
    rw [h0]
    simp [conv2dSetupVal, conv2dJmat, Matrix.of_apply]
  · have h1 := key 1
    simp only [Fin.val_one] at h1
    rw [h1]
    simp [conv2dSetupVal, conv2dJmat, Matrix.of_apply]
  · intro c
    rw [key c]
    rw [Matrix.adjugate_fin_two]
    fin_cases c <;>
      simp [conv2dSetupVal, conv2dJmat, Matrix.mulVec, Matrix.dotProduct,
        Fin.sum_univ_two, Fin.isValue, Matrix.cons_val_zero, Matrix.cons_val_one] <;>
      ring

/-- Closed instance of C1 discharging its range hypotheses at NQ = NE = 1,
q = e = 0 on concrete inputs. -/
theorem C1_setup2d_adjugate_witness :
    (PAConvectionSetup2D 1 1 (fun _ => 1) (fun i => (i : real_t)) 2
        (fun i => (i : real_t) + 1) 1 (fun _ => 0) (0 + 1 * 0 + 1 * 2 * 0)
        = 1 * (fun (_ : ℕ) => (1 : real_t)) 0 * conv2dVel 1 2 (fun i => (i : real_t) + 1) 0 0 0
            * conv2dJmat 1 (fun i => (i : real_t)) 0 0 1 1
          - 1 * (fun (_ : ℕ) => (1 : real_t)) 0 * conv2dVel 1 2 (fun i => (i : real_t) + 1) 0 0 1
            * conv2dJmat 1 (fun i => (i : real_t)) 0 0 0 1
      ∧ PAConvectionSetup2D 1 1 (fun _ => 1) (fun i => (i : real_t)) 2
        (fun i => (i : real_t) + 1) 1 (fun _ => 0) (0 + 1 * 1 + 1 * 2 * 0)
        = -(1 * (fun (_ : ℕ) => (1 : real_t)) 0 * conv2dVel 1 2 (fun i => (i : real_t) + 1) 0 0 0
            * conv2dJmat 1 (fun i => (i : real_t)) 0 0 1 0)
          + 1 * (fun (_ : ℕ) => (1 : real_t)) 0 * conv2dVel 1 2 (fun i => (i : real_t) + 1) 0 0 1
            * conv2dJmat 1 (fun i => (i : real_t)) 0 0 0 0)
    ∧ ∀ c : Fin 2,
        PAConvectionSetup2D 1 1 (fun _ => 1) (fun i => (i : real_t)) 2
            (fun i => (i : real_t) + 1) 1 (fun _ => 0) (0 + 1 * (c : ℕ) + 1 * 2 * 0)
          = (Matrix.adjugate (conv2dJmat 1 (fun i => (i : real_t)) 0 0)).mulVec
              (fun i => 1 * (fun (_ : ℕ) => (1 : real_t)) 0
                * conv2dVel 1 2 (fun i2 => (i2 : real_t) + 1) 0 0 i) c :=
  C1_setup2d_adjugate 1 1 (fun _ => 1) (fun i => (i : real_t)) 2
    (fun i => (i : real_t) + 1) 1 (fun _ => 0) 0 0 (by decide) (by decide)

/-- C2: for every in-range quadrature point q and element e, the 3D Setup
kernel stores the vector with components y_i = sum over j of wx_j * A_ji,
where wx_j = alpha*W(q)*v_j, v is the velocity sample at (q,e) (the constant
vector when the velocity is uniform), and A_ji is the (j,i) cofactor term of
the Jacobian, i.e. the entry (i,j) of adj(J); equivalently the stored vector
is adj(J) applied to the vector wx. -/
theorem C2_setup3d_adjugate (NQ NE : ℕ) (W j : ℕ → real_t) (velSize : ℕ)
    (vel : ℕ → real_t) (alpha : real_t) (op : ℕ → real_t) (q e : ℕ)
    (hq : q < NQ) (he : e < NE) :
    ∀ c : Fin 3,
      PAConvectionSetup3D NQ NE W j velSize vel alpha op (q + NQ * (c : ℕ) + NQ * 3 * e)
          = ∑ i : Fin 3, (alpha * W q * conv3dVel NQ velSize vel q e i)
              * cofactorMat (conv3dJmat NQ j q e) i c
        ∧ PAConvectionSetup3D NQ NE W j velSize vel alpha op (q + NQ * (c : ℕ) + NQ * 3 * e)
          = (Matrix.adjugate (conv3dJmat NQ j q e)).mulVec
              (fun i => alpha * W q * conv3dVel NQ velSize vel q e i) c := by
  intro c
  rw [PAConvectionSetup3D_entry NQ NE W j velSize vel alpha op c hq he]
  constructor <;>
    (fin_cases c <;>
      simp [conv3dSetupVal, conv3dJmat, cofactorMat, Matrix.adjugate_fin_three,
        Matrix.mulVec, Matrix.dotProduct, Fin.sum_univ_three, Matrix.transpose_apply,
        Matrix.of_apply] <;>
      ring)

/-- Closed instance of C2 discharging its range hypotheses at NQ = NE = 1,
q = e = 0 on concrete inputs. -/
theorem C2_setup3d_adjugate_witness :
    PAConvectionSetup3D 1 1 (fun _ => 2) (fun i => (i : real_t)) 0
        (fun i => (i : real_t) + 1) 3 (fun _ => 5) (0 + 1 * ((1 : Fin 3) : ℕ) + 1 * 3 * 0)
        = ∑ i : Fin 3, (3 * (fun (_ : ℕ) => (2 : real_t)) 0
            * conv3dVel 1 0 (fun i2 => (i2 : real_t) + 1) 0 0 i)
            * cofactorMat (conv3dJmat 1 (fun i => (i : real_t)) 0 0) i 1
      ∧ PAConvectionSetup3D 1 1 (fun _ => 2) (fun i => (i : real_t)) 0
          (fun i => (i : real_t) + 1) 3 (fun _ => 5) (0 + 1 * ((1 : Fin 3) : ℕ) + 1 * 3 * 0)
        = (Matrix.adjugate (conv3dJmat 1 (fun i => (i : real_t)) 0 0)).mulVec
            (fun i => 3 * (fun (_ : ℕ) => (2 : real_t)) 0
              * conv3dVel 1 0 (fun i2 => (i2 : real_t) + 1) 0 0 i) 1 :=
  C2_setup3d_adjugate 1 1 (fun _ => 2) (fun i => (i : real_t)) 0
    (fun i => (i : real_t) + 1) 3 (fun _ => 5) 0 0 (by decide) (by decide) 1

/-- C6 counterexample: with dimension 4 (not 1), Setup returns normally but
the resulting buffer still holds the prior contents, so the buffer is not
fully overwritten from the inputs alone: priors 7 and 0 give outputs 7 and 0
at entry 0, a dependence on the prior contents that the claim excludes. -/
theorem C6_setup_dim_cex :
    Option.map (fun f => f 0)
        (PAConvectionSetup 4 1 1 (fun _ => 0) (fun _ => 0) 0 (fun _ => 0) 1
          (fun _ => 7)) = some 7
    ∧ Option.map (fun f => f 0)
        (PAConvectionSetup 4 1 1 (fun _ => 0) (fun _ => 0) 0 (fun _ => 0) 1
          (fun _ => 0)) = some 0 := by
  constructor <;> rfl

/-- C6 amended: Setup with dimension 1 aborts fatally and writes nothing;
with dimension 2 or 3 it succeeds and fully overwrites the coefficient
buffer, every in-range entry computed from the inputs alone with no
dependence on the prior contents; with any other dimension it returns
normally but leaves the buffer untouched. -/
theorem C6_setup_dim_dispatch (dim NQ NE : ℕ) (W j : ℕ → real_t) (velSize : ℕ)
    (vel : ℕ → real_t) (alpha : real_t) (op1 op2 : ℕ → real_t) (hdim : dim ≠ 1) :
    PAConvectionSetup 1 NQ NE W j velSize vel alpha op1 = none ∧
    ∃ f1 f2, PAConvectionSetup dim NQ NE W j velSize vel alpha op1 = some f1
      ∧ PAConvectionSetup dim NQ NE W j velSize vel alpha op2 = some f2
      ∧ (dim = 2 → ∀ i, i < NQ * 2 * NE → f1 i = f2 i)
      ∧ (dim = 3 → ∀ i, i < NQ * 3 * NE → f1 i = f2 i)
      ∧ (dim ≠ 2 → dim ≠ 3 → f1 = op1 ∧ f2 = op2) := by
  constructor
  · simp [PAConvectionSetup]
  · by_cases h2 : dim = 2
    · subst h2
      refine ⟨PAConvectionSetup2D NQ NE W j velSize vel alpha op1,
              PAConvectionSetup2D NQ NE W j velSize vel alpha op2, ?_, ?_, ?_, ?_, ?_⟩
      · simp [PAConvectionSetup]
      · simp [PAConvectionSetup]
      · intro _ i hi
        simp [PAConvectionSetup2D, hi]
      · intro h; exact absurd h (by norm_num)
      · intro hne _; exact absurd rfl hne
    · by_cases h3 : dim = 3
      · subst h3
        refine ⟨PAConvectionSetup3D NQ NE W j velSize vel alpha op1,
                PAConvectionSetup3D NQ NE W j velSize vel alpha op2, ?_, ?_, ?_, ?_, ?_⟩
        · simp [PAConvectionSetup]
        · simp [PAConvectionSetup]
        · intro h; exact absurd h (by norm_num)
        · intro _ i hi
          simp [PAConvectionSetup3D, hi]
        · intro _ hne; exact absurd rfl hne
      · refine ⟨op1, op2, ?_, ?_, ?_, ?_, ?_⟩
        · simp [PAConvectionSetup, hdim, h2, h3]
        · simp [PAConvectionSetup, hdim, h2, h3]
        · intro h; exact absurd h h2
        · intro h; exact absurd h h3
        · intro _ _; exact ⟨rfl, rfl⟩

/-- Closed instance of C6 amended at dimension 4, discharging the dim not
equal to 1 hypothesis on concrete inputs. -/
theorem C6_setup_dim_dispatch_witness :
    PAConvectionSetup 1 1 1 (fun _ => 0) (fun _ => 0) 0 (fun _ => 0) 1
        (fun _ => 7) = none ∧
    ∃ f1 f2, PAConvectionSetup 4 1 1 (fun _ => 0) (fun _ => 0) 0 (fun _ => 0) 1
          (fun _ => 7) = some f1
      ∧ PAConvectionSetup 4 1 1 (fun _ => 0) (fun _ => 0) 0 (fun _ => 0) 1
          (fun _ => 0) = some f2
      ∧ (4 = 2 → ∀ i, i < 1 * 2 * 1 → f1 i = f2 i)
      ∧ (4 = 3 → ∀ i, i < 1 * 3 * 1 → f1 i = f2 i)
      ∧ (4 ≠ 2 → 4 ≠ 3 → f1 = (fun _ => 7) ∧ f2 = (fun _ => 0)) :=
  C6_setup_dim_dispatch 4 1 1 (fun _ => 0) (fun _ => 0) 0 (fun _ => 0) 1
    (fun _ => 7) (fun _ => 0) (by decide)

/- ### Shared-memory versus generic kernels

The shared-memory kernels distribute identical arithmetic over a thread
grid; cell for cell they compute the same sums, so they are definitionally
equal to the generic kernels. -/

lemma smem2d_eq_generic {D Q NE : ℕ} (NBZ : ℕ) (B G : Fin Q → Fin D → real_t)
    (Bt Gt : Fin D → Fin Q → real_t) (op : Fin Q → Fin Q → Fin 2 → Fin NE → real_t)
    (x y : Fin D → Fin D → Fin NE → real_t) :
    SmemPAConvectionApply2D NBZ B G Bt Gt op x y
      = PAConvectionApply2D B G Bt Gt op x y := rfl

lemma smemT2d_eq_generic {D Q NE : ℕ} (NBZ : ℕ) (B G : Fin Q → Fin D → real_t)
    (Bt Gt : Fin D → Fin Q → real_t) (op : Fin Q → Fin Q → Fin 2 → Fin NE → real_t)
    (x y : Fin D → Fin D → Fin NE → real_t) :
    SmemPAConvectionApplyT2D NBZ B G Bt Gt op x y
      = PAConvectionApplyT2D B G Bt Gt op x y := rfl

lemma smem3d_eq_generic {D Q NE : ℕ} (B G : Fin Q → Fin D → real_t)
    (Bt Gt : Fin D → Fin Q → real_t)
    (op : Fin Q → Fin Q → Fin Q → Fin 3 → Fin NE → real_t)
    (x y : Fin D → Fin D → Fin D → Fin NE → real_t) :
    SmemPAConvectionApply3D B G Bt Gt op x y
      = PAConvectionApply3D B G Bt Gt op x y := rfl

lemma smemT3d_eq_generic {D Q NE : ℕ} (B G : Fin Q → Fin D → real_t)
    (Bt Gt : Fin D → Fin Q → real_t)
    (op : Fin Q → Fin Q → Fin Q → Fin 3 → Fin NE → real_t)
    (x y : Fin D → Fin D → Fin D → Fin NE → real_t) :
    SmemPAConvectionApplyT3D B G Bt Gt op x y
      = PAConvectionApplyT3D B G Bt Gt op x y := rfl

lemma smem2dflat_eq_generic (NBZ D Q NE : ℕ) (b g bt gt op x y : ℕ → real_t) :
    SmemPAConvectionApply2DFlat NBZ D Q NE b g bt gt op x y
      = PAConvectionApply2DFlat D Q NE b g bt gt op x y := rfl

lemma smemT2dflat_eq_generic (NBZ D Q NE : ℕ) (b g bt gt op x y : ℕ → real_t) :
    SmemPAConvectionApplyT2DFlat NBZ D Q NE b g bt gt op x y
      = PAConvectionApplyT2DFlat D Q NE b g bt gt op x y := rfl

lemma smem3dflat_eq_generic (D Q NE : ℕ) (b g bt gt op x y : ℕ → real_t) :
    SmemPAConvectionApply3DFlat D Q NE b g bt gt op x y
      = PAConvectionApply3DFlat D Q NE b g bt gt op x y := rfl

lemma smemT3dflat_eq_generic (D Q NE : ℕ) (b g bt gt op x y : ℕ → real_t) :
    SmemPAConvectionApplyT3DFlat D Q NE b g bt gt op x y
      = PAConvectionApplyT3DFlat D Q NE b g bt gt op x y := rfl

/-- For a catalogued 2D pair the packed key is unambiguous (both fields are
below 16), the switch selects the specialization with template sizes equal
to the runtime pair, and its output equals the checked generic fallback. -/
lemma conv2d_dispatch_catalogue (maxD maxQ D Q NE : ℕ) (b g bt gt op x y : ℕ → real_t)
    (h2 : (D, Q) ∈ convCat2D) :
    PAConvectionApply maxD maxQ 2 D Q NE b g bt gt op x y
      = convChecked maxD maxQ D Q (PAConvectionApply2DFlat D Q NE b g bt gt op x y)
    ∧ PAConvectionApplyT maxD maxQ 2 D Q NE b g bt gt op x y
      = convChecked maxD maxQ D Q (PAConvectionApplyT2DFlat D Q NE b g bt gt op x y) := by
  have hall : ∀ p ∈ convCat2D,
      conv2dSpec (convKey p.1 p.2) = some (p.1, p.2, conv2dNBZ p.1) := by decide
  have hspec := hall (D, Q) h2
  constructor <;>
    simp [PAConvectionApply, PAConvectionApplyT, hspec,
      smem2dflat_eq_generic, smemT2dflat_eq_generic]

/-- For a catalogued 3D pair the switch selects the specialization with
template sizes equal to the runtime pair, and its output equals the checked
generic fallback. -/
lemma conv3d_dispatch_catalogue (maxD maxQ D Q NE : ℕ) (b g bt gt op x y : ℕ → real_t)
    (h3 : (D, Q) ∈ convCat3D) :
    PAConvectionApply maxD maxQ 3 D Q NE b g bt gt op x y
      = convChecked maxD maxQ D Q (PAConvectionApply3DFlat D Q NE b g bt gt op x y)
    ∧ PAConvectionApplyT maxD maxQ 3 D Q NE b g bt gt op x y
      = convChecked maxD maxQ D Q (PAConvectionApplyT3DFlat D Q NE b g bt gt op x y) := by
  have hall : ∀ p ∈ convCat3D,
      conv3dSpec (convKey p.1 p.2) = some (p.1, p.2) := by decide
  have hspec := hall (D, Q) h3
  constructor <;>
    simp [PAConvectionApply, PAConvectionApplyT, hspec,
      smem3dflat_eq_generic, smemT3dflat_eq_generic]

/-- C5: for every (D,Q) pair in the specialized dispatch catalogue (2D and
3D), the shared-memory tiled specialized kernel produces exactly the same
output as the generic fallback kernel on the same inputs, forward and
transpose; consequently the dispatch layer, which selects the specialized
kernel for those pairs, agrees everywhere with running the generic fallback
under the same platform-limit check. -/
theorem C5_specialized_matches_generic (D Q D3 Q3 NE maxD maxQ : ℕ)
    (h2 : (D, Q) ∈ convCat2D) (h3 : (D3, Q3) ∈ convCat3D)
    (B G : Fin Q → Fin D → real_t) (Bt Gt : Fin D → Fin Q → real_t)
    (op : Fin Q → Fin Q → Fin 2 → Fin NE → real_t)
    (x y : Fin D → Fin D → Fin NE → real_t)
    (B3 G3 : Fin Q3 → Fin D3 → real_t) (Bt3 Gt3 : Fin D3 → Fin Q3 → real_t)
    (op3 : Fin Q3 → Fin Q3 → Fin Q3 → Fin 3 → Fin NE → real_t)
    (x3 y3 : Fin D3 → Fin D3 → Fin D3 → Fin NE → real_t)
    (b g bt gt opf xf yf : ℕ → real_t) :
    (SmemPAConvectionApply2D (conv2dNBZ D) B G Bt Gt op x y
        = PAConvectionApply2D B G Bt Gt op x y
      ∧ SmemPAConvectionApplyT2D (conv2dNBZ D) B G Bt Gt op x y
        = PAConvectionApplyT2D B G Bt Gt op x y)
    ∧ (SmemPAConvectionApply3D B3 G3 Bt3 Gt3 op3 x3 y3
        = PAConvectionApply3D B3 G3 Bt3 Gt3 op3 x3 y3
      ∧ SmemPAConvectionApplyT3D B3 G3 Bt3 Gt3 op3 x3 y3
        = PAConvectionApplyT3D B3 G3 Bt3 Gt3 op3 x3 y3)
    ∧ (PAConvectionApply maxD maxQ 2 D Q NE b g bt gt opf xf yf
        = convChecked maxD maxQ D Q (PAConvectionApply2DFlat D Q NE b g bt gt opf xf yf)
      ∧ PAConvectionApplyT maxD maxQ 2 D Q NE b g bt gt opf xf yf
        = convChecked maxD maxQ D Q (PAConvectionApplyT2DFlat D Q NE b g bt gt opf xf yf)
      ∧ PAConvectionApply maxD maxQ 3 D3 Q3 NE b g bt gt opf xf yf
        = convChecked maxD maxQ D3 Q3 (PAConvectionApply3DFlat D3 Q3 NE b g bt gt opf xf yf)
      ∧ PAConvectionApplyT maxD maxQ 3 D3 Q3 NE b g bt gt opf xf yf
        = convChecked maxD maxQ D3 Q3 (PAConvectionApplyT3DFlat D3 Q3 NE b g bt gt opf xf yf)) := by
  refine ⟨⟨rfl, rfl⟩, ⟨rfl, rfl⟩, ?_, ?_, ?_, ?_⟩
  · exact (conv2d_dispatch_catalogue maxD maxQ D Q NE b g bt gt opf xf yf h2).1
  · exact (conv2d_dispatch_catalogue maxD maxQ D Q NE b g bt gt opf xf yf h2).2
  · exact (conv3d_dispatch_catalogue maxD maxQ D3 Q3 NE b g bt gt opf xf yf h3).1
  · exact (conv3d_dispatch_catalogue maxD maxQ D3 Q3 NE b g bt gt opf xf yf h3).2

/-- Closed instance of C5 at the catalogued pairs (4,4) in 2D and (4,5) in
3D, discharging both membership hypotheses. -/
theorem C5_specialized_matches_generic_witness :
    (@SmemPAConvectionApply2D 4 4 1 (conv2dNBZ 4) (fun _ _ => 1) (fun _ _ => 2)
        (fun _ _ => 3) (fun _ _ => 4) (fun _ _ _ _ => 5) (fun _ _ _ => 6)
        (fun _ _ _ => 7)
        = @PAConvectionApply2D 4 4 1 (fun _ _ => 1) (fun _ _ => 2)
          (fun _ _ => 3) (fun _ _ => 4) (fun _ _ _ _ => 5) (fun _ _ _ => 6)
          (fun _ _ _ => 7)
      ∧ @SmemPAConvectionApplyT2D 4 4 1 (conv2dNBZ 4) (fun _ _ => 1) (fun _ _ => 2)
        (fun _ _ => 3) (fun _ _ => 4) (fun _ _ _ _ => 5) (fun _ _ _ => 6)
        (fun _ _ _ => 7)
        = @PAConvectionApplyT2D 4 4 1 (fun _ _ => 1) (fun _ _ => 2)
          (fun _ _ => 3) (fun _ _ => 4) (fun _ _ _ _ => 5) (fun _ _ _ => 6)
          (fun _ _ _ => 7))
    ∧ (@SmemPAConvectionApply3D 4 5 1 (fun _ _ => 1) (fun _ _ => 2)
        (fun _ _ => 3) (fun _ _ => 4) (fun _ _ _ _ _ => 5) (fun _ _ _ _ => 6)
        (fun _ _ _ _ => 7)
        = @PAConvectionApply3D 4 5 1 (fun _ _ => 1) (fun _ _ => 2)
          (fun _ _ => 3) (fun _ _ => 4) (fun _ _ _ _ _ => 5) (fun _ _ _ _ => 6)
          (fun _ _ _ _ => 7)
      ∧ @SmemPAConvectionApplyT3D 4 5 1 (fun _ _ => 1) (fun _ _ => 2)
        (fun _ _ => 3) (fun _ _ => 4) (fun _ _ _ _ _ => 5) (fun _ _ _ _ => 6)
        (fun _ _ _ _ => 7)
        = @PAConvectionApplyT3D 4 5 1 (fun _ _ => 1) (fun _ _ => 2)
          (fun _ _ => 3) (fun _ _ => 4) (fun _ _ _ _ _ => 5) (fun _ _ _ _ => 6)
          (fun _ _ _ _ => 7))
    ∧ (PAConvectionApply 14 14 2 4 4 1 (fun _ => 1) (fun _ => 2) (fun _ => 3)
        (fun _ => 4) (fun _ => 5) (fun _ => 6) (fun _ => 7)
        = convChecked 14 14 4 4 (PAConvectionApply2DFlat 4 4 1 (fun _ => 1) (fun _ => 2)
          (fun _ => 3) (fun _ => 4) (fun _ => 5) (fun _ => 6) (fun _ => 7))
      ∧ PAConvectionApplyT 14 14 2 4 4 1 (fun _ => 1) (fun _ => 2) (fun _ => 3)
        (fun _ => 4) (fun _ => 5) (fun _ => 6) (fun _ => 7)
        = convChecked 14 14 4 4 (PAConvectionApplyT2DFlat 4 4 1 (fun _ => 1) (fun _ => 2)
          (fun _ => 3) (fun _ => 4) (fun _ => 5) (fun _ => 6) (fun _ => 7))
      ∧ PAConvectionApply 14 14 3 4 5 1 (fun _ => 1) (fun _ => 2) (fun _ => 3)
        (fun _ => 4) (fun _ => 5) (fun _ => 6) (fun _ => 7)
        = convChecked 14 14 4 5 (PAConvectionApply3DFlat 4 5 1 (fun _ => 1) (fun _ => 2)
          (fun _ => 3) (fun _ => 4) (fun _ => 5) (fun _ => 6) (fun _ => 7))
      ∧ PAConvectionApplyT 14 14 3 4 5 1 (fun _ => 1) (fun _ => 2) (fun _ => 3)
        (fun _ => 4) (fun _ => 5) (fun _ => 6) (fun _ => 7)
        = convChecked 14 14 4 5 (PAConvectionApplyT3DFlat 4 5 1 (fun _ => 1) (fun _ => 2)
          (fun _ => 3) (fun _ => 4) (fun _ => 5) (fun _ => 6) (fun _ => 7))) :=
  C5_specialized_matches_generic 4 4 4 5 1 14 14 (by decide) (by decide)
    (fun _ _ => 1) (fun _ _ => 2) (fun _ _ => 3) (fun _ _ => 4) (fun _ _ _ _ => 5)
    (fun _ _ _ => 6) (fun _ _ _ => 7)
    (fun _ _ => 1) (fun _ _ => 2) (fun _ _ => 3) (fun _ _ => 4) (fun _ _ _ _ _ => 5)
    (fun _ _ _ _ => 6) (fun _ _ _ _ => 7)
    (fun _ => 1) (fun _ => 2) (fun _ => 3) (fun _ => 4) (fun _ => 5) (fun _ => 6)
    (fun _ => 7)

/-- C4: every Apply and ApplyTranspose kernel accumulates into the output
and never overwrites it: one call yields y plus a contribution that depends
only on the input and coefficients (the value of the call on the zero
output), and a second call with the same input adds the same contribution
again. -/
theorem C4_apply_accumulates {D Q NE : ℕ} (B G : Fin Q → Fin D → real_t)
    (Bt Gt : Fin D → Fin Q → real_t) (op : Fin Q → Fin Q → Fin 2 → Fin NE → real_t)
    (x y : Fin D → Fin D → Fin NE → real_t)
    (op3 : Fin Q → Fin Q → Fin Q → Fin 3 → Fin NE → real_t)
    (x3 y3 : Fin D → Fin D → Fin D → Fin NE → real_t) :
    ((∀ dx dy e, PAConvectionApply2D B G Bt Gt op x y dx dy e
        = y dx dy e + PAConvectionApply2D B G Bt Gt op x (fun _ _ _ => 0) dx dy e)
      ∧ ∀ dx dy e, PAConvectionApply2D B G Bt Gt op x
          (PAConvectionApply2D B G Bt Gt op x y) dx dy e
        = PAConvectionApply2D B G Bt Gt op x y dx dy e
          + PAConvectionApply2D B G Bt Gt op x (fun _ _ _ => 0) dx dy e)
    ∧ ((∀ dx dy e, PAConvectionApplyT2D B G Bt Gt op x y dx dy e
        = y dx dy e + PAConvectionApplyT2D B G Bt Gt op x (fun _ _ _ => 0) dx dy e)
      ∧ ∀ dx dy e, PAConvectionApplyT2D B G Bt Gt op x
          (PAConvectionApplyT2D B G Bt Gt op x y) dx dy e
        = PAConvectionApplyT2D B G Bt Gt op x y dx dy e
          + PAConvectionApplyT2D B G Bt Gt op x (fun _ _ _ => 0) dx dy e)
    ∧ ((∀ dx dy dz e, PAConvectionApply3D B G Bt Gt op3 x3 y3 dx dy dz e
        = y3 dx dy dz e
          + PAConvectionApply3D B G Bt Gt op3 x3 (fun _ _ _ _ => 0) dx dy dz e)
      ∧ ∀ dx dy dz e, PAConvectionApply3D B G Bt Gt op3 x3
          (PAConvectionApply3D B G Bt Gt op3 x3 y3) dx dy dz e
        = PAConvectionApply3D B G Bt Gt op3 x3 y3 dx dy dz e
          + PAConvectionApply3D B G Bt Gt op3 x3 (fun _ _ _ _ => 0) dx dy dz e)
    ∧ ((∀ dx dy dz e, PAConvectionApplyT3D B G Bt Gt op3 x3 y3 dx dy dz e
        = y3 dx dy dz e
          + PAConvectionApplyT3D B G Bt Gt op3 x3 (fun _ _ _ _ => 0) dx dy dz e)
      ∧ ∀ dx dy dz e, PAConvectionApplyT3D B G Bt Gt op3 x3
          (PAConvectionApplyT3D B G Bt Gt op3 x3 y3) dx dy dz e
        = PAConvectionApplyT3D B G Bt Gt op3 x3 y3 dx dy dz e
          + PAConvectionApplyT3D B G Bt Gt op3 x3 (fun _ _ _ _ => 0) dx dy dz e) := by
  refine ⟨⟨?_, ?_⟩, ⟨?_, ?_⟩, ⟨?_, ?_⟩, ⟨?_, ?_⟩⟩ <;> intros <;>
    simp [PAConvectionApply2D, PAConvectionApplyT2D, PAConvectionApply3D,
      PAConvectionApplyT3D]

/-- C10: each kernel reads x, the coefficient buffer and the basis tables
only and mutates only y, adding exactly one contribution to each element dof
block; the embedding is a pure function of those inputs whose only output is
y, and this theorem states the per-element frame property: the contribution
added to element e (the difference between output and initial y there) is
the same for any initial output contents and for any inputs agreeing with
the originals on the slices of x and of the coefficient buffer belonging to
element e. -/
theorem C10_frame_readonly {D Q NE : ℕ} (B G : Fin Q → Fin D → real_t)
    (Bt Gt : Fin D → Fin Q → real_t)
    (op op2 : Fin Q → Fin Q → Fin 2 → Fin NE → real_t)
    (x x2 y y2 : Fin D → Fin D → Fin NE → real_t)
    (op3 op4 : Fin Q → Fin Q → Fin Q → Fin 3 → Fin NE → real_t)
    (x3 x4 y3 y4 : Fin D → Fin D → Fin D → Fin NE → real_t)
    (e : Fin NE)
    (hx : ∀ a b, x a b e = x2 a b e)
    (hop : ∀ qx qy c, op qx qy c e = op2 qx qy c e)
    (hx3 : ∀ a b c, x3 a b c e = x4 a b c e)
    (hop3 : ∀ qx qy qz c, op3 qx qy qz c e = op4 qx qy qz c e) :
    (∀ dx dy, PAConvectionApply2D B G Bt Gt op x y dx dy e - y dx dy e
        = PAConvectionApply2D B G Bt Gt op2 x2 y2 dx dy e - y2 dx dy e)
    ∧ (∀ dx dy, PAConvectionApplyT2D B G Bt Gt op x y dx dy e - y dx dy e
        = PAConvectionApplyT2D B G Bt Gt op2 x2 y2 dx dy e - y2 dx dy e)
    ∧ (∀ dx dy dz, PAConvectionApply3D B G Bt Gt op3 x3 y3 dx dy dz e - y3 dx dy dz e
        = PAConvectionApply3D B G Bt Gt op4 x4 y4 dx dy dz e - y4 dx dy dz e)
    ∧ (∀ dx dy dz, PAConvectionApplyT3D B G Bt Gt op3 x3 y3 dx dy dz e - y3 dx dy dz e
        = PAConvectionApplyT3D B G Bt Gt op4 x4 y4 dx dy dz e - y4 dx dy dz e) := by
  have ex : (fun a b => x a b e) = fun a b => x2 a b e :=
    funext fun a => funext fun b => hx a b
  have eop : (fun qx qy c => op qx qy c e) = fun qx qy c => op2 qx qy c e :=
    funext fun qx => funext fun qy => funext fun c => hop qx qy c
  have ex3 : (fun a b c => x3 a b c e) = fun a b c => x4 a b c e :=
    funext fun a => funext fun b => funext fun c => hx3 a b c
  have eop3 : (fun qx qy qz c => op3 qx qy qz c e) = fun qx qy qz c => op4 qx qy qz c e :=
    funext fun qx => funext fun qy => funext fun qz => funext fun c => hop3 qx qy qz c
  refine ⟨?_, ?_, ?_, ?_⟩ <;> intros <;>
    simp only [PAConvectionApply2D, PAConvectionApplyT2D, PAConvectionApply3D,
      PAConvectionApplyT3D, ex, eop, ex3, eop3, add_sub_cancel_left]

/-- Closed instance of C10 discharging the slice-agreement hypotheses at
D = Q = NE = 1 on concrete inputs. -/
theorem C10_frame_readonly_witness :
    (∀ dx dy, @PAConvectionApply2D 1 1 1 (fun _ _ => 1) (fun _ _ => 2) (fun _ _ => 3)
          (fun _ _ => 4) (fun _ _ _ _ => 5) (fun _ _ _ => 6) (fun _ _ _ => 7) dx dy 0
          - (fun _ _ _ => (7 : real_t)) dx dy 0
        = @PAConvectionApply2D 1 1 1 (fun _ _ => 1) (fun _ _ => 2) (fun _ _ => 3)
          (fun _ _ => 4) (fun _ _ _ _ => 5) (fun _ _ _ => 6) (fun _ _ _ => 8) dx dy 0
          - (fun _ _ _ => (8 : real_t)) dx dy 0)
    ∧ (∀ dx dy, @PAConvectionApplyT2D 1 1 1 (fun _ _ => 1) (fun _ _ => 2) (fun _ _ => 3)
          (fun _ _ => 4) (fun _ _ _ _ => 5) (fun _ _ _ => 6) (fun _ _ _ => 7) dx dy 0
          - (fun _ _ _ => (7 : real_t)) dx dy 0
        = @PAConvectionApplyT2D 1 1 1 (fun _ _ => 1) (fun _ _ => 2) (fun _ _ => 3)
          (fun _ _ => 4) (fun _ _ _ _ => 5) (fun _ _ _ => 6) (fun _ _ _ => 8) dx dy 0
          - (fun _ _ _ => (8 : real_t)) dx dy 0)
    ∧ (∀ dx dy dz, @PAConvectionApply3D 1 1 1 (fun _ _ => 1) (fun _ _ => 2) (fun _ _ => 3)
          (fun _ _ => 4) (fun _ _ _ _ _ => 5) (fun _ _ _ _ => 6) (fun _ _ _ _ => 7)
          dx dy dz 0 - (fun _ _ _ _ => (7 : real_t)) dx dy dz 0
        = @PAConvectionApply3D 1 1 1 (fun _ _ => 1) (fun _ _ => 2) (fun _ _ => 3)
          (fun _ _ => 4) (fun _ _ _ _ _ => 5) (fun _ _ _ _ => 6) (fun _ _ _ _ => 8)
          dx dy dz 0 - (fun _ _ _ _ => (8 : real_t)) dx dy dz 0)
    ∧ (∀ dx dy dz, @PAConvectionApplyT3D 1 1 1 (fun _ _ => 1) (fun _ _ => 2) (fun _ _ => 3)
          (fun _ _ => 4) (fun _ _ _ _ _ => 5) (fun _ _ _ _ => 6) (fun _ _ _ _ => 7)
          dx dy dz 0 - (fun _ _ _ _ => (7 : real_t)) dx dy dz 0
        = @PAConvectionApplyT3D 1 1 1 (fun _ _ => 1) (fun _ _ => 2) (fun _ _ => 3)
          (fun _ _ => 4) (fun _ _ _ _ _ => 5) (fun _ _ _ _ => 6) (fun _ _ _ _ => 8)
          dx dy dz 0 - (fun _ _ _ _ => (8 : real_t)) dx dy dz 0) :=
  C10_frame_readonly (fun _ _ => 1) (fun _ _ => 2) (fun _ _ => 3) (fun _ _ => 4)
    (fun _ _ _ _ => 5) (fun _ _ _ _ => 5) (fun _ _ _ => 6) (fun _ _ _ => 6)
    (fun _ _ _ => 7) (fun _ _ _ => 8)
    (fun _ _ _ _ _ => 5) (fun _ _ _ _ _ => 5) (fun _ _ _ _ => 6) (fun _ _ _ _ => 6)
    (fun _ _ _ _ => 7) (fun _ _ _ _ => 8) 0
    (fun _ _ => rfl) (fun _ _ _ => rfl) (fun _ _ _ => rfl) (fun _ _ _ _ => rfl)

/-- C7 counterexample: the claimed universal abort fails on the program:
with platform limits 14, dimension 2, D1D=2 and Q1D=19 (over the Q1D
limit), the packed switch key (2 << 4) | 19 = 0x33 selects the (3,3)
specialization, whose platform-limit verify checks the template sizes 3,3
and passes, so Apply and ApplyTranspose run to completion and produce
output instead of failing fatally. -/
theorem C7_packed_key_alias_cex :
    14 < 19
    ∧ PAConvectionApply 14 14 2 2 19 1 (fun _ => 0) (fun _ => 0) (fun _ => 0)
        (fun _ => 0) (fun _ => 0) (fun _ => 0) (fun _ => 0)
      = some (SmemPAConvectionApply2DFlat 4 3 3 1 (fun _ => 0) (fun _ => 0)
        (fun _ => 0) (fun _ => 0) (fun _ => 0) (fun _ => 0) (fun _ => 0))
    ∧ PAConvectionApplyT 14 14 2 2 19 1 (fun _ => 0) (fun _ => 0) (fun _ => 0)
        (fun _ => 0) (fun _ => 0) (fun _ => 0) (fun _ => 0)
      = some (SmemPAConvectionApplyT2DFlat 4 3 3 1 (fun _ => 0) (fun _ => 0)
        (fun _ => 0) (fun _ => 0) (fun _ => 0) (fun _ => 0) (fun _ => 0)) := by
  refine ⟨by decide, ?_, ?_⟩ <;> rfl

/-- C7 amended: Apply and ApplyTranspose abort with no output whenever the
dimension is not 2 or 3; when the dimension is 2 or 3 and the packed switch
key takes the generic fallback, they abort with no output whenever the
runtime D1D exceeds MAX_D1D or Q1D exceeds MAX_Q1D, the verify running
before kernel entry; when the key selects a catalogued specialization, the
verify instead checks that specialization's compile-time template sizes, so
an over-limit runtime pair whose key aliases into the catalogue is not
rejected (see the counterexample). -/
theorem C7_apply_limit_checks_amended (maxD maxQ dim D Q NE : ℕ)
    (b g bt gt op x y : ℕ → real_t) :
    ((dim ≠ 2 ∧ dim ≠ 3) →
      PAConvectionApply maxD maxQ dim D Q NE b g bt gt op x y = none
      ∧ PAConvectionApplyT maxD maxQ dim D Q NE b g bt gt op x y = none)
    ∧ (dim = 2 → conv2dSpec (convKey D Q) = none → maxD < D ∨ maxQ < Q →
      PAConvectionApply maxD maxQ dim D Q NE b g bt gt op x y = none
      ∧ PAConvectionApplyT maxD maxQ dim D Q NE b g bt gt op x y = none)
    ∧ (dim = 3 → conv3dSpec (convKey D Q) = none → maxD < D ∨ maxQ < Q →
      PAConvectionApply maxD maxQ dim D Q NE b g bt gt op x y = none
      ∧ PAConvectionApplyT maxD maxQ dim D Q NE b g bt gt op x y = none)
    ∧ (dim = 2 → ∀ Dt Qt NBZ2, conv2dSpec (convKey D Q) = some (Dt, Qt, NBZ2) →
      maxD < Dt ∨ maxQ < Qt →
      PAConvectionApply maxD maxQ dim D Q NE b g bt gt op x y = none
      ∧ PAConvectionApplyT maxD maxQ dim D Q NE b g bt gt op x y = none)
    ∧ (dim = 3 → ∀ Dt Qt, conv3dSpec (convKey D Q) = some (Dt, Qt) →
      maxD < Dt ∨ maxQ < Qt →
      PAConvectionApply maxD maxQ dim D Q NE b g bt gt op x y = none
      ∧ PAConvectionApplyT maxD maxQ dim D Q NE b g bt gt op x y = none) := by
  refine ⟨?_, ?_, ?_, ?_, ?_⟩
  · rintro ⟨h2, h3⟩
    unfold PAConvectionApply PAConvectionApplyT
    rw [if_neg h2, if_neg h3, if_neg h2, if_neg h3]
    exact ⟨rfl, rfl⟩
  · rintro rfl hspec hlim
    constructor <;> (simp [PAConvectionApply, PAConvectionApplyT, hspec, convChecked]; omega)
  · rintro rfl hspec hlim
    constructor <;> (simp [PAConvectionApply, PAConvectionApplyT, hspec, convChecked]; omega)
  · rintro rfl Dt Qt NBZ2 hspec hlim
    constructor <;> (simp [PAConvectionApply, PAConvectionApplyT, hspec, convChecked]; omega)
  · rintro rfl Dt Qt hspec hlim
    constructor <;> (simp [PAConvectionApply, PAConvectionApplyT, hspec, convChecked]; omega)

/-- Closed instance of C7 amended on the generic fallback: dimension 2,
D1D = 15 over the limit 14, key 0xF2 not in the catalogue, so both
dispatchers abort with no output. -/
theorem C7_apply_limit_checks_amended_witness :
    PAConvectionApply 14 14 2 15 2 1 (fun _ => 1) (fun _ => 2) (fun _ => 3)
        (fun _ => 4) (fun _ => 5) (fun _ => 6) (fun _ => 7) = none
    ∧ PAConvectionApplyT 14 14 2 15 2 1 (fun _ => 1) (fun _ => 2) (fun _ => 3)
        (fun _ => 4) (fun _ => 5) (fun _ => 6) (fun _ => 7) = none :=
  (C7_apply_limit_checks_amended 14 14 2 15 2 1 (fun _ => 1) (fun _ => 2)
    (fun _ => 3) (fun _ => 4) (fun _ => 5) (fun _ => 6) (fun _ => 7)).2.1
    rfl (by decide) (Or.inl (by decide))

/-- C9 counterexample: no input with D1D or Q1D over the platform limit
makes any generic kernel run to completion: the same MFEM_VERIFY guard as in
the shared-memory path aborts the generic 2D and 3D, forward and transpose
kernels, so the claimed over-limit completing run does not exist. -/
theorem C9_generic_limit_cex :
    ¬ ∃ (maxD maxQ D Q NE : ℕ) (b g bt gt op x y : ℕ → real_t),
      (maxD < D ∨ maxQ < Q)
      ∧ (convChecked maxD maxQ D Q (PAConvectionApply2DFlat D Q NE b g bt gt op x y) ≠ none
        ∨ convChecked maxD maxQ D Q (PAConvectionApplyT2DFlat D Q NE b g bt gt op x y) ≠ none
        ∨ convChecked maxD maxQ D Q (PAConvectionApply3DFlat D Q NE b g bt gt op x y) ≠ none
        ∨ convChecked maxD maxQ D Q (PAConvectionApplyT3DFlat D Q NE b g bt gt op x y) ≠ none) := by
  rintro ⟨maxD, maxQ, D, Q, NE, b, g, bt, gt, op, x, y, hlim, hrun⟩
  have hnone : ∀ body : ℕ → real_t, convChecked maxD maxQ D Q body = none := by
    intro body
    simp [convChecked]
    omega
  rcases hrun with h | h | h | h <;> exact h (hnone _)

/-- C9 amended: the generic (non-shared-memory) Apply path enforces exactly
the same platform-limit assertion as the shared-memory path: whenever D1D or
Q1D exceeds the platform maximum, every generic kernel (2D and 3D, forward
and transpose) fails fatally with no output instead of running to
completion. -/
theorem C9_generic_limit_enforced (maxD maxQ D Q NE : ℕ)
    (b g bt gt op x y : ℕ → real_t) (h : maxD < D ∨ maxQ < Q) :
    convChecked maxD maxQ D Q (PAConvectionApply2DFlat D Q NE b g bt gt op x y) = none
    ∧ convChecked maxD maxQ D Q (PAConvectionApplyT2DFlat D Q NE b g bt gt op x y) = none
    ∧ convChecked maxD maxQ D Q (PAConvectionApply3DFlat D Q NE b g bt gt op x y) = none
    ∧ convChecked maxD maxQ D Q (PAConvectionApplyT3DFlat D Q NE b g bt gt op x y) = none := by
  refine ⟨?_, ?_, ?_, ?_⟩ <;> (simp [convChecked]; omega)

/-- Closed instance of C9 amended at Q1D = 15 over the host limit 14. -/
theorem C9_generic_limit_enforced_witness :
    convChecked 14 14 2 15 (PAConvectionApply2DFlat 2 15 1 (fun _ => 1) (fun _ => 2)
        (fun _ => 3) (fun _ => 4) (fun _ => 5) (fun _ => 6) (fun _ => 7)) = none
    ∧ convChecked 14 14 2 15 (PAConvectionApplyT2DFlat 2 15 1 (fun _ => 1) (fun _ => 2)
        (fun _ => 3) (fun _ => 4) (fun _ => 5) (fun _ => 6) (fun _ => 7)) = none
    ∧ convChecked 14 14 2 15 (PAConvectionApply3DFlat 2 15 1 (fun _ => 1) (fun _ => 2)
        (fun _ => 3) (fun _ => 4) (fun _ => 5) (fun _ => 6) (fun _ => 7)) = none
    ∧ convChecked 14 14 2 15 (PAConvectionApplyT3DFlat 2 15 1 (fun _ => 1) (fun _ => 2)
        (fun _ => 3) (fun _ => 4) (fun _ => 5) (fun _ => 6) (fun _ => 7)) = none :=
  C9_generic_limit_enforced 14 14 2 15 1 (fun _ => 1) (fun _ => 2) (fun _ => 3)
    (fun _ => 4) (fun _ => 5) (fun _ => 6) (fun _ => 7) (by omega)

/- ### Zero velocity -/

lemma conv2dSetupVal_zero (NQ : ℕ) (W j : ℕ → real_t) (velSize : ℕ)
    (vel : ℕ → real_t) (alpha : real_t) (q e : ℕ) (c : Fin 2)
    (hv : ∀ i, vel i = 0) :
    conv2dSetupVal NQ W j velSize vel alpha q e c = 0 := by
  simp [conv2dSetupVal, conv2dVel, hv]

lemma conv3dSetupVal_zero (NQ : ℕ) (W j : ℕ → real_t) (velSize : ℕ)
    (vel : ℕ → real_t) (alpha : real_t) (q e : ℕ) (c : Fin 3)
    (hv : ∀ i, vel i = 0) :
    conv3dSetupVal NQ W j velSize vel alpha q e c = 0 := by
  simp [conv3dSetupVal, conv3dVel, hv]

lemma conv2dContrib_zero {D Q : ℕ} (B G : Fin Q → Fin D → real_t)
    (Bt : Fin D → Fin Q → real_t) (O : Fin Q → Fin Q → Fin 2 → real_t)
    (x : Fin D → Fin D → real_t) (dx dy : Fin D) (hO : ∀ qx qy c, O qx qy c = 0) :
    conv2dContrib B G Bt O x dx dy = 0 := by
  simp [conv2dContrib, conv2dBDGu, conv2dDGu, hO]

lemma convT2dContrib_zero {D Q : ℕ} (B : Fin Q → Fin D → real_t)
    (Bt Gt : Fin D → Fin Q → real_t) (O : Fin Q → Fin Q → Fin 2 → real_t)
    (x : Fin D → Fin D → real_t) (dx dy : Fin D) (hO : ∀ qx qy c, O qx qy c = 0) :
    convT2dContrib B Bt Gt O x dx dy = 0 := by
  simp [convT2dContrib, convT2dGDBu, convT2dDBu, hO]

lemma conv3dContrib_zero {D Q : ℕ} (B G : Fin Q → Fin D → real_t)
    (Bt : Fin D → Fin Q → real_t) (O : Fin Q → Fin Q → Fin Q → Fin 3 → real_t)
    (x : Fin D → Fin D → Fin D → real_t) (dx dy dz : Fin D)
    (hO : ∀ qx qy qz c, O qx qy qz c = 0) :
    conv3dContrib B G Bt O x dx dy dz = 0 := by
  simp [conv3dContrib, conv3dBBDGu, conv3dBDGu, conv3dDGu, hO]

lemma convT3dContrib_zero {D Q : ℕ} (B : Fin Q → Fin D → real_t)
    (Bt Gt : Fin D → Fin Q → real_t) (O : Fin Q → Fin Q → Fin Q → Fin 3 → real_t)
    (x : Fin D → Fin D → Fin D → real_t) (dx dy dz : Fin D)
    (hO : ∀ qx qy qz c, O qx qy qz c = 0) :
    convT3dContrib B Bt Gt O x dx dy dz = 0 := by
  simp [convT3dContrib, convT3dGGDBu, convT3dGDBu, convT3dDBu, hO]

/-- Strict monotone bound for nested Reshape index encodings. -/
lemma enc_lt {N n a b : ℕ} (ha : a < N) (hb : b < n) : a + N * b < N * n := by
  have h1 : a + N * b < N + N * b := Nat.add_lt_add_right ha _
  have h2 : N + N * b = N * (b + 1) := by ring
  have h3 : N * (b + 1) ≤ N * n := Nat.mul_le_mul_left _ hb
  omega

/-- Recomposition of the 2D dof index decode. -/
lemma recompose2 (D i : ℕ) : i % D + D * (i / D % D + D * (i / (D * D))) = i := by
  have h1 : i / (D * D) = i / D / D := (Nat.div_div_eq_div_mul i D D).symm
  rw [h1, Nat.mod_add_div, Nat.mod_add_div]

/-- Recomposition of the 3D dof index decode. -/
lemma recompose3 (D i : ℕ) :
    i % D + D * (i / D % D + D * (i / (D * D) % D + D * (i / (D * D * D)))) = i := by
  have h2 : i / (D * D * D) = i / (D * D) / D := (Nat.div_div_eq_div_mul i (D * D) D).symm
  have h1 : i / (D * D) = i / D / D := (Nat.div_div_eq_div_mul i D D).symm
  rw [h2, h1, Nat.mod_add_div, Nat.mod_add_div, Nat.mod_add_div]

/-- The 2D coefficient accessor stays inside the Setup output range when the
quadrature grid is the full tensor grid NQ = Q*Q. -/
lemma op2_index_lt {Q NE : ℕ} (qx qy : Fin Q) (c : Fin 2) (e : Fin NE) :
    (qx : ℕ) + Q * ((qy : ℕ) + Q * ((c : ℕ) + 2 * (e : ℕ))) < Q * Q * 2 * NE := by
  have hce : (c : ℕ) + 2 * (e : ℕ) < 2 * NE := enc_lt c.isLt e.isLt
  have hy : (qy : ℕ) + Q * ((c : ℕ) + 2 * (e : ℕ)) < Q * (2 * NE) :=
    enc_lt qy.isLt hce
  have hx : (qx : ℕ) + Q * ((qy : ℕ) + Q * ((c : ℕ) + 2 * (e : ℕ)))
      < Q * (Q * (2 * NE)) := enc_lt qx.isLt hy
  calc (qx : ℕ) + Q * ((qy : ℕ) + Q * ((c : ℕ) + 2 * (e : ℕ)))
      < Q * (Q * (2 * NE)) := hx
    _ = Q * Q * 2 * NE := by ring

/-- The 3D coefficient accessor stays inside the Setup output range when the
quadrature grid is the full tensor grid NQ = Q*Q*Q. -/
lemma op3_index_lt {Q NE : ℕ} (qx qy qz : Fin Q) (c : Fin 3) (e : Fin NE) :
    (qx : ℕ) + Q * ((qy : ℕ) + Q * ((qz : ℕ) + Q * ((c : ℕ) + 3 * (e : ℕ))))
      < Q * Q * Q * 3 * NE := by
  have hce : (c : ℕ) + 3 * (e : ℕ) < 3 * NE := enc_lt c.isLt e.isLt
  have hz : (qz : ℕ) + Q * ((c : ℕ) + 3 * (e : ℕ)) < Q * (3 * NE) :=
    enc_lt qz.isLt hce
  have hy : (qy : ℕ) + Q * ((qz : ℕ) + Q * ((c : ℕ) + 3 * (e : ℕ)))
      < Q * (Q * (3 * NE)) := enc_lt qy.isLt hz
  have hx : (qx : ℕ) + Q * ((qy : ℕ) + Q * ((qz : ℕ) + Q * ((c : ℕ) + 3 * (e : ℕ))))
      < Q * (Q * (Q * (3 * NE))) := enc_lt qx.isLt hy
  calc (qx : ℕ) + Q * ((qy : ℕ) + Q * ((qz : ℕ) + Q * ((c : ℕ) + 3 * (e : ℕ))))
      < Q * (Q * (Q * (3 * NE))) := hx
    _ = Q * Q * Q * 3 * NE := by ring

/-- C8: with an identically zero velocity field, Setup in dimension 2 and 3
fills the coefficient buffer entirely with zeros, and Apply and
ApplyTranspose run on such a Setup buffer (full tensor quadrature grid)
leave every entry of the output vector unchanged, for every input. -/
theorem C8_zero_velocity (NQ NE : ℕ) (W j : ℕ → real_t) (velSize : ℕ)
    (vel : ℕ → real_t) (alpha : real_t) (op0 : ℕ → real_t)
    (D Q NEa : ℕ) (b g bt gt x y : ℕ → real_t) (hv : ∀ i, vel i = 0) :
    (∀ i, i < NQ * 2 * NE → PAConvectionSetup2D NQ NE W j velSize vel alpha op0 i = 0)
    ∧ (∀ i, i < NQ * 3 * NE → PAConvectionSetup3D NQ NE W j velSize vel alpha op0 i = 0)
    ∧ (∀ i, PAConvectionApply2DFlat D Q NEa b g bt gt
        (PAConvectionSetup2D (Q * Q) NEa W j velSize vel alpha op0) x y i = y i)
    ∧ (∀ i, PAConvectionApplyT2DFlat D Q NEa b g bt gt
        (PAConvectionSetup2D (Q * Q) NEa W j velSize vel alpha op0) x y i = y i)
    ∧ (∀ i, PAConvectionApply3DFlat D Q NEa b g bt gt
        (PAConvectionSetup3D (Q * Q * Q) NEa W j velSize vel alpha op0) x y i = y i)
    ∧ (∀ i, PAConvectionApplyT3DFlat D Q NEa b g bt gt
        (PAConvectionSetup3D (Q * Q * Q) NEa W j velSize vel alpha op0) x y i = y i) := by
  have hbuf2 : ∀ i, i < Q * Q * 2 * NEa →
      PAConvectionSetup2D (Q * Q) NEa W j velSize vel alpha op0 i = 0 := by
    intro i hi
    unfold PAConvectionSetup2D
    rw [if_pos hi]
    exact conv2dSetupVal_zero _ _ _ _ _ _ _ _ _ hv
  have hbuf3 : ∀ i, i < Q * Q * Q * 3 * NEa →
      PAConvectionSetup3D (Q * Q * Q) NEa W j velSize vel alpha op0 i = 0 := by
    intro i hi
    unfold PAConvectionSetup3D
    have hi2 : i < Q * Q * Q * 3 * NEa := hi
    rw [if_pos (by calc i < Q * Q * Q * 3 * NEa := hi2
                    _ = Q * Q * Q * 3 * NEa := rfl)]
    exact conv3dSetupVal_zero _ _ _ _ _ _ _ _ _ hv
  have hop2 : ∀ e : Fin NEa, ∀ (qx qy : Fin Q) (c : Fin 2),
      flatOp2 Q NEa (PAConvectionSetup2D (Q * Q) NEa W j velSize vel alpha op0)
        qx qy c e = 0 := by
    intro e qx qy c
    exact hbuf2 _ (op2_index_lt qx qy c e)
  have hop3 : ∀ e : Fin NEa, ∀ (qx qy qz : Fin Q) (c : Fin 3),
      flatOp3 Q NEa (PAConvectionSetup3D (Q * Q * Q) NEa W j velSize vel alpha op0)
        qx qy qz c e = 0 := by
    intro e qx qy qz c
    exact hbuf3 _ (op3_index_lt qx qy qz c e)
  refine ⟨?_, ?_, ?_, ?_, ?_, ?_⟩
  · intro i hi
    unfold PAConvectionSetup2D
    rw [if_pos hi]
    exact conv2dSetupVal_zero _ _ _ _ _ _ _ _ _ hv
  · intro i hi
    unfold PAConvectionSetup3D
    rw [if_pos hi]
    exact conv3dSetupVal_zero _ _ _ _ _ _ _ _ _ hv
  · intro i
    unfold PAConvectionApply2DFlat
    split
    · rename_i h
      rw [PAConvectionApply2D, conv2dContrib_zero _ _ _ _ _ _ _ (hop2 _),
        add_zero]
      show y _ = y i
      congr 1
      exact recompose2 D i
    · rfl
  · intro i
    unfold PAConvectionApplyT2DFlat
    split
    · rename_i h
      rw [PAConvectionApplyT2D, convT2dContrib_zero _ _ _ _ _ _ _ (hop2 _),
        add_zero]
      show y _ = y i
      congr 1
      exact recompose2 D i
    · rfl
  · intro i
    unfold PAConvectionApply3DFlat
    split
    · rename_i h
      rw [PAConvectionApply3D, conv3dContrib_zero _ _ _ _ _ _ _ _ (hop3 _),
        add_zero]
      show y _ = y i
      congr 1
      exact recompose3 D i
    · rfl
  · intro i
    unfold PAConvectionApplyT3DFlat
    split
    · rename_i h
      rw [PAConvectionApplyT3D, convT3dContrib_zero _ _ _ _ _ _ _ _ (hop3 _),
        add_zero]
      show y _ = y i
      congr 1
      exact recompose3 D i
    · rfl

/-- Closed instance of C8 discharging the zero-velocity hypothesis on
concrete inputs. -/
theorem C8_zero_velocity_witness :
    (∀ i, i < 1 * 2 * 1 →
      PAConvectionSetup2D 1 1 (fun _ => 1) (fun k => (k : real_t)) 0 (fun _ => 0) 5
        (fun _ => 9) i = 0)
    ∧ (∀ i, i < 1 * 3 * 1 →
      PAConvectionSetup3D 1 1 (fun _ => 1) (fun k => (k : real_t)) 0 (fun _ => 0) 5
        (fun _ => 9) i = 0)
    ∧ (∀ i, PAConvectionApply2DFlat 2 2 1 (fun _ => 1) (fun _ => 2) (fun _ => 3)
        (fun _ => 4) (PAConvectionSetup2D (2 * 2) 1 (fun _ => 1) (fun k => (k : real_t))
          0 (fun _ => 0) 5 (fun _ => 9)) (fun _ => 6) (fun _ => 7) i = (fun _ => (7 : real_t)) i)
    ∧ (∀ i, PAConvectionApplyT2DFlat 2 2 1 (fun _ => 1) (fun _ => 2) (fun _ => 3)
        (fun _ => 4) (PAConvectionSetup2D (2 * 2) 1 (fun _ => 1) (fun k => (k : real_t))
          0 (fun _ => 0) 5 (fun _ => 9)) (fun _ => 6) (fun _ => 7) i = (fun _ => (7 : real_t)) i)
    ∧ (∀ i, PAConvectionApply3DFlat 2 2 1 (fun _ => 1) (fun _ => 2) (fun _ => 3)
        (fun _ => 4) (PAConvectionSetup3D (2 * 2 * 2) 1 (fun _ => 1) (fun k => (k : real_t))
          0 (fun _ => 0) 5 (fun _ => 9)) (fun _ => 6) (fun _ => 7) i = (fun _ => (7 : real_t)) i)
    ∧ (∀ i, PAConvectionApplyT3DFlat 2 2 1 (fun _ => 1) (fun _ => 2) (fun _ => 3)
        (fun _ => 4) (PAConvectionSetup3D (2 * 2 * 2) 1 (fun _ => 1) (fun k => (k : real_t))
          0 (fun _ => 0) 5 (fun _ => 9)) (fun _ => 6) (fun _ => 7) i = (fun _ => (7 : real_t)) i) :=
  C8_zero_velocity 1 1 (fun _ => 1) (fun k => (k : real_t)) 0 (fun _ => 0) 5
    (fun _ => 9) 2 2 1 (fun _ => 1) (fun _ => 2) (fun _ => 3) (fun _ => 4)
    (fun _ => 6) (fun _ => 7) (fun _ => rfl)

/- ### Sum interchange lemmas for the adjoint identity -/

lemma sum_swap_head {a b : ℕ} (f : Fin a → Fin b → real_t) :
    ∑ i, ∑ j, f i j = ∑ j, ∑ i, f i j := by
  rw [Finset.sum_comm]

lemma sum_rot3 {a b c : ℕ} (f : Fin a → Fin b → Fin c → real_t) :
    ∑ i, ∑ j, ∑ k, f i j k = ∑ k, ∑ i, ∑ j, f i j k := by
  calc ∑ i, ∑ j, ∑ k, f i j k
      = ∑ i, ∑ k, ∑ j, f i j k :=
        Finset.sum_congr rfl fun i _ => sum_swap_head _
    _ = ∑ k, ∑ i, ∑ j, f i j k := sum_swap_head _

lemma sum_rot4 {a b c d : ℕ} (f : Fin a → Fin b → Fin c → Fin d → real_t) :
    ∑ i, ∑ j, ∑ k, ∑ l, f i j k l = ∑ l, ∑ i, ∑ j, ∑ k, f i j k l := by
  calc ∑ i, ∑ j, ∑ k, ∑ l, f i j k l
      = ∑ i, ∑ l, ∑ j, ∑ k, f i j k l :=
        Finset.sum_congr rfl fun i _ => sum_rot3 _
    _ = ∑ l, ∑ i, ∑ j, ∑ k, f i j k l := sum_swap_head _

lemma sum_swap22 {a b c d : ℕ} (f : Fin a → Fin b → Fin c → Fin d → real_t) :
    ∑ i, ∑ j, ∑ k, ∑ l, f i j k l = ∑ k, ∑ l, ∑ i, ∑ j, f i j k l := by
  calc ∑ i, ∑ j, ∑ k, ∑ l, f i j k l
      = ∑ l, ∑ i, ∑ j, ∑ k, f i j k l := sum_rot4 _
    _ = ∑ k, ∑ l, ∑ i, ∑ j, f i j k l := sum_rot4 _

lemma sum_rot5 {a b c d e : ℕ} (f : Fin a → Fin b → Fin c → Fin d → Fin e → real_t) :
    ∑ i, ∑ j, ∑ k, ∑ l, ∑ m, f i j k l m = ∑ m, ∑ i, ∑ j, ∑ k, ∑ l, f i j k l m := by
  calc ∑ i, ∑ j, ∑ k, ∑ l, ∑ m, f i j k l m
      = ∑ i, ∑ m, ∑ j, ∑ k, ∑ l, f i j k l m :=
        Finset.sum_congr rfl fun i _ => sum_rot4 _
    _ = ∑ m, ∑ i, ∑ j, ∑ k, ∑ l, f i j k l m := sum_swap_head _

lemma sum_rot6 {a b c d e g : ℕ}
    (f : Fin a → Fin b → Fin c → Fin d → Fin e → Fin g → real_t) :
    ∑ i, ∑ j, ∑ k, ∑ l, ∑ m, ∑ n, f i j k l m n
      = ∑ n, ∑ i, ∑ j, ∑ k, ∑ l, ∑ m, f i j k l m n := by
  calc ∑ i, ∑ j, ∑ k, ∑ l, ∑ m, ∑ n, f i j k l m n
      = ∑ i, ∑ n, ∑ j, ∑ k, ∑ l, ∑ m, f i j k l m n :=
        Finset.sum_congr rfl fun i _ => sum_rot5 _
    _ = ∑ n, ∑ i, ∑ j, ∑ k, ∑ l, ∑ m, f i j k l m n := sum_swap_head _

lemma sum_swap33 {a b c d e g : ℕ}
    (f : Fin a → Fin b → Fin c → Fin d → Fin e → Fin g → real_t) :
    ∑ i, ∑ j, ∑ k, ∑ l, ∑ m, ∑ n, f i j k l m n
      = ∑ l, ∑ m, ∑ n, ∑ i, ∑ j, ∑ k, f i j k l m n := by
  calc ∑ i, ∑ j, ∑ k, ∑ l, ∑ m, ∑ n, f i j k l m n
      = ∑ n, ∑ i, ∑ j, ∑ k, ∑ l, ∑ m, f i j k l m n := sum_rot6 _
    _ = ∑ m, ∑ n, ∑ i, ∑ j, ∑ k, ∑ l, f i j k l m n := sum_rot6 _
    _ = ∑ l, ∑ m, ∑ n, ∑ i, ∑ j, ∑ k, f i j k l m n := sum_rot6 _

/-- Moving a two-axis dof contraction against a quadrature field across the
dof dot product. -/
lemma expand_two {D Q : ℕ} (U V : Fin Q → Fin D → real_t)
    (S : Fin Q → Fin Q → real_t) (t : Fin D → Fin D → real_t) :
    ∑ dx, ∑ dy, (∑ qx, U qx dx * (∑ qy, V qy dy * S qy qx)) * t dx dy
    = ∑ qx, ∑ qy, S qy qx * (∑ dy, ∑ dx, V qy dy * (U qx dx * t dx dy)) := by
  have step1 : ∀ dx dy, (∑ qx, U qx dx * (∑ qy, V qy dy * S qy qx)) * t dx dy
      = ∑ qx, ∑ qy, U qx dx * (V qy dy * S qy qx) * t dx dy := by
    intro dx dy
    rw [Finset.sum_mul]
    refine Finset.sum_congr rfl fun qx _ => ?_
    rw [Finset.mul_sum, Finset.sum_mul]
  calc ∑ dx, ∑ dy, (∑ qx, U qx dx * (∑ qy, V qy dy * S qy qx)) * t dx dy
      = ∑ dx, ∑ dy, ∑ qx, ∑ qy, U qx dx * (V qy dy * S qy qx) * t dx dy :=
        Finset.sum_congr rfl fun dx _ => Finset.sum_congr rfl fun dy _ => step1 dx dy
    _ = ∑ qx, ∑ qy, ∑ dx, ∑ dy, U qx dx * (V qy dy * S qy qx) * t dx dy := sum_swap22 _
    _ = ∑ qx, ∑ qy, S qy qx * (∑ dy, ∑ dx, V qy dy * (U qx dx * t dx dy)) := by
        refine Finset.sum_congr rfl fun qx _ => Finset.sum_congr rfl fun qy _ => ?_
        rw [sum_swap_head, Finset.mul_sum]
        refine Finset.sum_congr rfl fun dy _ => ?_
        rw [Finset.mul_sum]
        exact Finset.sum_congr rfl fun dx _ => by ring

/-- Variant of expand_two with the dof vector on the left. -/
lemma expand_two_left {D Q : ℕ} (U V : Fin Q → Fin D → real_t)
    (S : Fin Q → Fin Q → real_t) (p : Fin D → Fin D → real_t) :
    ∑ dx, ∑ dy, p dx dy * (∑ qx, U qx dx * (∑ qy, V qy dy * S qy qx))
    = ∑ qx, ∑ qy, S qy qx * (∑ dy, ∑ dx, V qy dy * (U qx dx * p dx dy)) := by
  calc ∑ dx, ∑ dy, p dx dy * (∑ qx, U qx dx * (∑ qy, V qy dy * S qy qx))
      = ∑ dx, ∑ dy, (∑ qx, U qx dx * (∑ qy, V qy dy * S qy qx)) * p dx dy :=
        Finset.sum_congr rfl fun dx _ => Finset.sum_congr rfl fun dy _ => mul_comm _ _
    _ = ∑ qx, ∑ qy, S qy qx * (∑ dy, ∑ dx, V qy dy * (U qx dx * p dx dy)) :=
        expand_two U V S p

/-- Moving a three-axis dof contraction against a quadrature field across
the dof dot product. -/
lemma expand_three {D Q : ℕ} (U V W2 : Fin Q → Fin D → real_t)
    (S : Fin Q → Fin Q → Fin Q → real_t) (t : Fin D → Fin D → Fin D → real_t) :
    ∑ dx, ∑ dy, ∑ dz,
        (∑ qx, U qx dx * (∑ qy, V qy dy * (∑ qz, W2 qz dz * S qz qy qx))) * t dx dy dz
    = ∑ qx, ∑ qy, ∑ qz, S qz qy qx
        * (∑ dz, ∑ dy, ∑ dx, W2 qz dz * (V qy dy * (U qx dx * t dx dy dz))) := by
  have step1 : ∀ dx dy dz,
      (∑ qx, U qx dx * (∑ qy, V qy dy * (∑ qz, W2 qz dz * S qz qy qx))) * t dx dy dz
      = ∑ qx, ∑ qy, ∑ qz, U qx dx * (V qy dy * (W2 qz dz * S qz qy qx)) * t dx dy dz := by
    intro dx dy dz
    rw [Finset.sum_mul]
    refine Finset.sum_congr rfl fun qx _ => ?_
    rw [Finset.mul_sum, Finset.sum_mul]
    refine Finset.sum_congr rfl fun qy _ => ?_
    rw [Finset.mul_sum, Finset.mul_sum, Finset.sum_mul]
  calc ∑ dx, ∑ dy, ∑ dz,
        (∑ qx, U qx dx * (∑ qy, V qy dy * (∑ qz, W2 qz dz * S qz qy qx))) * t dx dy dz
      = ∑ dx, ∑ dy, ∑ dz, ∑ qx, ∑ qy, ∑ qz,
          U qx dx * (V qy dy * (W2 qz dz * S qz qy qx)) * t dx dy dz :=
        Finset.sum_congr rfl fun dx _ => Finset.sum_congr rfl fun dy _ =>
          Finset.sum_congr rfl fun dz _ => step1 dx dy dz
    _ = ∑ qx, ∑ qy, ∑ qz, ∑ dx, ∑ dy, ∑ dz,
          U qx dx * (V qy dy * (W2 qz dz * S qz qy qx)) * t dx dy dz := sum_swap33 _
    _ = ∑ qx, ∑ qy, ∑ qz, S qz qy qx
          * (∑ dz, ∑ dy, ∑ dx, W2 qz dz * (V qy dy * (U qx dx * t dx dy dz))) := by
        refine Finset.sum_congr rfl fun qx _ => Finset.sum_congr rfl fun qy _ =>
          Finset.sum_congr rfl fun qz _ => ?_
        rw [sum_rot3, Finset.mul_sum]
        refine Finset.sum_congr rfl fun dz _ => ?_
        rw [sum_swap_head, Finset.mul_sum]
        refine Finset.sum_congr rfl fun dy _ => ?_
        rw [Finset.mul_sum]
        exact Finset.sum_congr rfl fun dx _ => by ring

/-- Variant of expand_three with the dof vector on the left. -/
lemma expand_three_left {D Q : ℕ} (U V W2 : Fin Q → Fin D → real_t)
    (S : Fin Q → Fin Q → Fin Q → real_t) (p : Fin D → Fin D → Fin D → real_t) :
    ∑ dx, ∑ dy, ∑ dz,
        p dx dy dz * (∑ qx, U qx dx * (∑ qy, V qy dy * (∑ qz, W2 qz dz * S qz qy qx)))
    = ∑ qx, ∑ qy, ∑ qz, S qz qy qx
        * (∑ dz, ∑ dy, ∑ dx, W2 qz dz * (V qy dy * (U qx dx * p dx dy dz))) := by
  calc ∑ dx, ∑ dy, ∑ dz,
        p dx dy dz * (∑ qx, U qx dx * (∑ qy, V qy dy * (∑ qz, W2 qz dz * S qz qy qx)))
      = ∑ dx, ∑ dy, ∑ dz,
          (∑ qx, U qx dx * (∑ qy, V qy dy * (∑ qz, W2 qz dz * S qz qy qx))) * p dx dy dz :=
        Finset.sum_congr rfl fun dx _ => Finset.sum_congr rfl fun dy _ =>
          Finset.sum_congr rfl fun dz _ => mul_comm _ _
    _ = ∑ qx, ∑ qy, ∑ qz, S qz qy qx
          * (∑ dz, ∑ dy, ∑ dx, W2 qz dz * (V qy dy * (U qx dx * p dx dy dz))) :=
        expand_three U V W2 S p

/-- The forward 2D bilinear value: dotting the forward contribution with t
equals the quadrature-point sum of DGu against the interpolation of t, when
Bt is the transpose of B. -/
lemma conv2d_forward_canonical {D Q : ℕ} (B G : Fin Q → Fin D → real_t)
    (O : Fin Q → Fin Q → Fin 2 → real_t) (p t : Fin D → Fin D → real_t) :
    ∑ dx, ∑ dy, conv2dContrib B G (fun d qq => B qq d) O p dx dy * t dx dy
    = ∑ qx, ∑ qy, conv2dDGu B G O p qy qx * convT2dBBu B t qy qx := by
  calc ∑ dx, ∑ dy, conv2dContrib B G (fun d qq => B qq d) O p dx dy * t dx dy
      = ∑ dx, ∑ dy,
          (∑ qx, B qx dx * (∑ qy, B qy dy * conv2dDGu B G O p qy qx)) * t dx dy := rfl
    _ = ∑ qx, ∑ qy, conv2dDGu B G O p qy qx
          * (∑ dy, ∑ dx, B qy dy * (B qx dx * t dx dy)) :=
        expand_two B B (fun qy qx => conv2dDGu B G O p qy qx) t
    _ = ∑ qx, ∑ qy, conv2dDGu B G O p qy qx * convT2dBBu B t qy qx := by
        refine Finset.sum_congr rfl fun qx _ => Finset.sum_congr rfl fun qy _ => ?_
        congr 1
        unfold convT2dBBu convT2dBu
        refine Finset.sum_congr rfl fun dy _ => ?_
        rw [Finset.mul_sum]

/-- The transpose 2D bilinear value: dotting p with the transpose
contribution of t gives exactly the same quadrature-point sum, when Bt and
Gt are the transposes of B and G. -/
lemma conv2d_transpose_canonical {D Q : ℕ} (B G : Fin Q → Fin D → real_t)
    (O : Fin Q → Fin Q → Fin 2 → real_t) (p t : Fin D → Fin D → real_t) :
    ∑ dx, ∑ dy, p dx dy
        * convT2dContrib B (fun d qq => B qq d) (fun d qq => G qq d) O t dx dy
    = ∑ qx, ∑ qy, conv2dDGu B G O p qy qx * convT2dBBu B t qy qx := by
  have h1 : ∀ dx dy,
      convT2dContrib B (fun d qq => B qq d) (fun d qq => G qq d) O t dx dy
      = (∑ qx, G qx dx * (∑ qy, B qy dy * (O qx qy 0 * convT2dBBu B t qy qx)))
        + ∑ qx, B qx dx * (∑ qy, G qy dy * (O qx qy 1 * convT2dBBu B t qy qx)) := by
    intro dx dy
    rw [← Finset.sum_add_distrib]
    rfl
  have e1 : ∀ (qx qy : Fin Q), ∑ dy, ∑ dx, B qy dy * (G qx dx * p dx dy)
      = conv2dBGu B G p qy qx := by
    intro qx qy
    unfold conv2dBGu conv2dGu
    refine Finset.sum_congr rfl fun dy _ => ?_
    rw [Finset.mul_sum]
  have e2 : ∀ (qx qy : Fin Q), ∑ dy, ∑ dx, G qy dy * (B qx dx * p dx dy)
      = conv2dGBu B G p qy qx := by
    intro qx qy
    unfold conv2dGBu conv2dBu
    refine Finset.sum_congr rfl fun dy _ => ?_
    rw [Finset.mul_sum]
  calc ∑ dx, ∑ dy, p dx dy
        * convT2dContrib B (fun d qq => B qq d) (fun d qq => G qq d) O t dx dy
      = ∑ dx, ∑ dy,
          (p dx dy * (∑ qx, G qx dx * (∑ qy, B qy dy * (O qx qy 0 * convT2dBBu B t qy qx)))
          + p dx dy * (∑ qx, B qx dx * (∑ qy, G qy dy * (O qx qy 1 * convT2dBBu B t qy qx)))) :=
        Finset.sum_congr rfl fun dx _ => Finset.sum_congr rfl fun dy _ => by
          rw [h1 dx dy, mul_add]
    _ = (∑ dx, ∑ dy, p dx dy
            * (∑ qx, G qx dx * (∑ qy, B qy dy * (O qx qy 0 * convT2dBBu B t qy qx))))
        + ∑ dx, ∑ dy, p dx dy
            * (∑ qx, B qx dx * (∑ qy, G qy dy * (O qx qy 1 * convT2dBBu B t qy qx))) := by
        simp only [Finset.sum_add_distrib]
    _ = (∑ qx, ∑ qy, (O qx qy 0 * convT2dBBu B t qy qx)
            * (∑ dy, ∑ dx, B qy dy * (G qx dx * p dx dy)))
        + ∑ qx, ∑ qy, (O qx qy 1 * convT2dBBu B t qy qx)
            * (∑ dy, ∑ dx, G qy dy * (B qx dx * p dx dy)) := by
        rw [expand_two_left G B (fun qy qx => O qx qy 0 * convT2dBBu B t qy qx) p,
          expand_two_left B G (fun qy qx => O qx qy 1 * convT2dBBu B t qy qx) p]
    _ = ∑ qx, ∑ qy,
          ((O qx qy 0 * convT2dBBu B t qy qx) * conv2dBGu B G p qy qx
          + (O qx qy 1 * convT2dBBu B t qy qx) * conv2dGBu B G p qy qx) := by
        rw [← Finset.sum_add_distrib]
        refine Finset.sum_congr rfl fun qx _ => ?_
        rw [← Finset.sum_add_distrib]
        refine Finset.sum_congr rfl fun qy _ => ?_
        rw [e1 qx qy, e2 qx qy]
    _ = ∑ qx, ∑ qy, conv2dDGu B G O p qy qx * convT2dBBu B t qy qx := by
        refine Finset.sum_congr rfl fun qx _ => Finset.sum_congr rfl fun qy _ => ?_
        unfold conv2dDGu
        ring

/-- Per-element adjoint identity in 2D with transposed tables. -/
lemma conv2d_adjoint_elem {D Q : ℕ} (B G : Fin Q → Fin D → real_t)
    (O : Fin Q → Fin Q → Fin 2 → real_t) (p t : Fin D → Fin D → real_t) :
    ∑ dx, ∑ dy, conv2dContrib B G (fun d qq => B qq d) O p dx dy * t dx dy
    = ∑ dx, ∑ dy, p dx dy
        * convT2dContrib B (fun d qq => B qq d) (fun d qq => G qq d) O t dx dy :=
  (conv2d_forward_canonical B G O p t).trans
    (conv2d_transpose_canonical B G O p t).symm

/-- The forward 3D bilinear value with Bt the transpose of B. -/
lemma conv3d_forward_canonical {D Q : ℕ} (B G : Fin Q → Fin D → real_t)
    (O : Fin Q → Fin Q → Fin Q → Fin 3 → real_t) (p t : Fin D → Fin D → Fin D → real_t) :
    ∑ dx, ∑ dy, ∑ dz,
        conv3dContrib B G (fun d qq => B qq d) O p dx dy dz * t dx dy dz
    = ∑ qx, ∑ qy, ∑ qz, conv3dDGu B G O p qz qy qx * convT3dBBBu B t qz qy qx := by
  calc ∑ dx, ∑ dy, ∑ dz,
        conv3dContrib B G (fun d qq => B qq d) O p dx dy dz * t dx dy dz
      = ∑ dx, ∑ dy, ∑ dz,
          (∑ qx, B qx dx * (∑ qy, B qy dy
            * (∑ qz, B qz dz * conv3dDGu B G O p qz qy qx))) * t dx dy dz := rfl
    _ = ∑ qx, ∑ qy, ∑ qz, conv3dDGu B G O p qz qy qx
          * (∑ dz, ∑ dy, ∑ dx, B qz dz * (B qy dy * (B qx dx * t dx dy dz))) :=
        expand_three B B B (fun qz qy qx => conv3dDGu B G O p qz qy qx) t
    _ = ∑ qx, ∑ qy, ∑ qz, conv3dDGu B G O p qz qy qx * convT3dBBBu B t qz qy qx := by
        refine Finset.sum_congr rfl fun qx _ => Finset.sum_congr rfl fun qy _ =>
          Finset.sum_congr rfl fun qz _ => ?_
        congr 1
        unfold convT3dBBBu convT3dBBu convT3dBu
        refine Finset.sum_congr rfl fun dz _ => ?_
        rw [Finset.mul_sum]
        refine Finset.sum_congr rfl fun dy _ => ?_
        rw [Finset.mul_sum, Finset.mul_sum]

/-- The transpose 3D bilinear value with Bt, Gt the transposes of B, G. -/
lemma conv3d_transpose_canonical {D Q : ℕ} (B G : Fin Q → Fin D → real_t)
    (O : Fin Q → Fin Q → Fin Q → Fin 3 → real_t) (p t : Fin D → Fin D → Fin D → real_t) :
    ∑ dx, ∑ dy, ∑ dz, p dx dy dz
        * convT3dContrib B (fun d qq => B qq d) (fun d qq => G qq d) O t dx dy dz
    = ∑ qx, ∑ qy, ∑ qz, conv3dDGu B G O p qz qy qx * convT3dBBBu B t qz qy qx := by
  have h1 : ∀ dx dy dz,
      convT3dContrib B (fun d qq => B qq d) (fun d qq => G qq d) O t dx dy dz
      = (∑ qx, G qx dx * (∑ qy, B qy dy
            * (∑ qz, B qz dz * (O qx qy qz 0 * convT3dBBBu B t qz qy qx))))
        + (∑ qx, B qx dx * (∑ qy, G qy dy
            * (∑ qz, B qz dz * (O qx qy qz 1 * convT3dBBBu B t qz qy qx))))
        + ∑ qx, B qx dx * (∑ qy, B qy dy
            * (∑ qz, G qz dz * (O qx qy qz 2 * convT3dBBBu B t qz qy qx))) := by
    intro dx dy dz
    rw [← Finset.sum_add_distrib, ← Finset.sum_add_distrib]
    rfl
  have e1 : ∀ (qx qy qz : Fin Q),
      ∑ dz, ∑ dy, ∑ dx, B qz dz * (B qy dy * (G qx dx * p dx dy dz))
      = conv3dBBGu B G p qz qy qx := by
    intro qx qy qz
    unfold conv3dBBGu conv3dBGu conv3dGu
    refine Finset.sum_congr rfl fun dz _ => ?_
    rw [Finset.mul_sum]
    refine Finset.sum_congr rfl fun dy _ => ?_
    rw [Finset.mul_sum, Finset.mul_sum]
  have e2 : ∀ (qx qy qz : Fin Q),
      ∑ dz, ∑ dy, ∑ dx, B qz dz * (G qy dy * (B qx dx * p dx dy dz))
      = conv3dBGBu B G p qz qy qx := by
    intro qx qy qz
    unfold conv3dBGBu conv3dGBu conv3dBu
    refine Finset.sum_congr rfl fun dz _ => ?_
    rw [Finset.mul_sum]
    refine Finset.sum_congr rfl fun dy _ => ?_
    rw [Finset.mul_sum, Finset.mul_sum]
  have e3 : ∀ (qx qy qz : Fin Q),
      ∑ dz, ∑ dy, ∑ dx, G qz dz * (B qy dy * (B qx dx * p dx dy dz))
      = conv3dGBBu B G p qz qy qx := by
    intro qx qy qz
    unfold conv3dGBBu conv3dBBu conv3dBu
    refine Finset.sum_congr rfl fun dz _ => ?_
    rw [Finset.mul_sum]
    refine Finset.sum_congr rfl fun dy _ => ?_
    rw [Finset.mul_sum, Finset.mul_sum]
  calc ∑ dx, ∑ dy, ∑ dz, p dx dy dz
        * convT3dContrib B (fun d qq => B qq d) (fun d qq => G qq d) O t dx dy dz
      = ∑ dx, ∑ dy, ∑ dz,
          (p dx dy dz * (∑ qx, G qx dx * (∑ qy, B qy dy
              * (∑ qz, B qz dz * (O qx qy qz 0 * convT3dBBBu B t qz qy qx))))
          + p dx dy dz * (∑ qx, B qx dx * (∑ qy, G qy dy
              * (∑ qz, B qz dz * (O qx qy qz 1 * convT3dBBBu B t qz qy qx))))
          + p dx dy dz * (∑ qx, B qx dx * (∑ qy, B qy dy
              * (∑ qz, G qz dz * (O qx qy qz 2 * convT3dBBBu B t qz qy qx))))) :=
        Finset.sum_congr rfl fun dx _ => Finset.sum_congr rfl fun dy _ =>
          Finset.sum_congr rfl fun dz _ => by rw [h1 dx dy dz, mul_add, mul_add]
    _ = (∑ dx, ∑ dy, ∑ dz, p dx dy dz * (∑ qx, G qx dx * (∑ qy, B qy dy
            * (∑ qz, B qz dz * (O qx qy qz 0 * convT3dBBBu B t qz qy qx)))))
        + (∑ dx, ∑ dy, ∑ dz, p dx dy dz * (∑ qx, B qx dx * (∑ qy, G qy dy
            * (∑ qz, B qz dz * (O qx qy qz 1 * convT3dBBBu B t qz qy qx)))))
        + ∑ dx, ∑ dy, ∑ dz, p dx dy dz * (∑ qx, B qx dx * (∑ qy, B qy dy
            * (∑ qz, G qz dz * (O qx qy qz 2 * convT3dBBBu B t qz qy qx)))) := by
        simp only [Finset.sum_add_distrib]
    _ = (∑ qx, ∑ qy, ∑ qz, (O qx qy qz 0 * convT3dBBBu B t qz qy qx)
            * (∑ dz, ∑ dy, ∑ dx, B qz dz * (B qy dy * (G qx dx * p dx dy dz))))
        + (∑ qx, ∑ qy, ∑ qz, (O qx qy qz 1 * convT3dBBBu B t qz qy qx)
            * (∑ dz, ∑ dy, ∑ dx, B qz dz * (G qy dy * (B qx dx * p dx dy dz))))
        + ∑ qx, ∑ qy, ∑ qz, (O qx qy qz 2 * convT3dBBBu B t qz qy qx)
            * (∑ dz, ∑ dy, ∑ dx, G qz dz * (B qy dy * (B qx dx * p dx dy dz))) := by
        rw [expand_three_left G B B
            (fun qz qy qx => O qx qy qz 0 * convT3dBBBu B t qz qy qx) p,
          expand_three_left B G B
            (fun qz qy qx => O qx qy qz 1 * convT3dBBBu B t qz qy qx) p,
          expand_three_left B B G
            (fun qz qy qx => O qx qy qz 2 * convT3dBBBu B t qz qy qx) p]
    _ = ∑ qx, ∑ qy, ∑ qz,
          ((O qx qy qz 0 * convT3dBBBu B t qz qy qx) * conv3dBBGu B G p qz qy qx
          + (O qx qy qz 1 * convT3dBBBu B t qz qy qx) * conv3dBGBu B G p qz qy qx
          + (O qx qy qz 2 * convT3dBBBu B t qz qy qx) * conv3dGBBu B G p qz qy qx) := by
        rw [← Finset.sum_add_distrib, ← Finset.sum_add_distrib]
        refine Finset.sum_congr rfl fun qx _ => ?_
        rw [← Finset.sum_add_distrib, ← Finset.sum_add_distrib]
        refine Finset.sum_congr rfl fun qy _ => ?_
        rw [← Finset.sum_add_distrib, ← Finset.sum_add_distrib]
        refine Finset.sum_congr rfl fun qz _ => ?_
        rw [e1 qx qy qz, e2 qx qy qz, e3 qx qy qz]
    _ = ∑ qx, ∑ qy, ∑ qz, conv3dDGu B G O p qz qy qx * convT3dBBBu B t qz qy qx := by
        refine Finset.sum_congr rfl fun qx _ => Finset.sum_congr rfl fun qy _ =>
          Finset.sum_congr rfl fun qz _ => ?_
        unfold conv3dDGu
        ring

/-- Per-element adjoint identity in 3D with transposed tables. -/
lemma conv3d_adjoint_elem {D Q : ℕ} (B G : Fin Q → Fin D → real_t)
    (O : Fin Q → Fin Q → Fin Q → Fin 3 → real_t) (p t : Fin D → Fin D → Fin D → real_t) :
    ∑ dx, ∑ dy, ∑ dz,
        conv3dContrib B G (fun d qq => B qq d) O p dx dy dz * t dx dy dz
    = ∑ dx, ∑ dy, ∑ dz, p dx dy dz
        * convT3dContrib B (fun d qq => B qq d) (fun d qq => G qq d) O t dx dy dz :=
  (conv3d_forward_canonical B G O p t).trans
    (conv3d_transpose_canonical B G O p t).symm

/-- C3: in dimension 2 and 3, for all valid basis tables (Bt and Gt the
transposes of B and G), coefficient buffers and dof vectors p and q over the
same element set, the contributions of the matrix-free kernels satisfy the
exact adjoint identity dot(Apply(p), q) = dot(p, ApplyTranspose(q)). -/
theorem C3_adjoint_identity {D Q NE : ℕ} (B G : Fin Q → Fin D → real_t)
    (Bt Gt : Fin D → Fin Q → real_t)
    (hBt : ∀ d qq, Bt d qq = B qq d) (hGt : ∀ d qq, Gt d qq = G qq d)
    (op2 : Fin Q → Fin Q → Fin 2 → Fin NE → real_t)
    (p2 q2 : Fin D → Fin D → Fin NE → real_t)
    (op3 : Fin Q → Fin Q → Fin Q → Fin 3 → Fin NE → real_t)
    (p3 q3 : Fin D → Fin D → Fin D → Fin NE → real_t) :
    dot2 (PAConvectionApply2D B G Bt Gt op2 p2 (fun _ _ _ => 0)) q2
      = dot2 p2 (PAConvectionApplyT2D B G Bt Gt op2 q2 (fun _ _ _ => 0))
    ∧ dot3 (PAConvectionApply3D B G Bt Gt op3 p3 (fun _ _ _ _ => 0)) q3
      = dot3 p3 (PAConvectionApplyT3D B G Bt Gt op3 q3 (fun _ _ _ _ => 0)) := by
  have hBt2 : Bt = fun d qq => B qq d := funext fun d => funext fun qq => hBt d qq
  have hGt2 : Gt = fun d qq => G qq d := funext fun d => funext fun qq => hGt d qq
  subst hBt2 hGt2
  constructor
  · simp only [dot2, PAConvectionApply2D, PAConvectionApplyT2D, zero_add]
    exact Finset.sum_congr rfl fun e _ =>
      conv2d_adjoint_elem B G (fun qx qy c => op2 qx qy c e)
        (fun a b => p2 a b e) (fun a b => q2 a b e)
  · simp only [dot3, PAConvectionApply3D, PAConvectionApplyT3D, zero_add]
    exact Finset.sum_congr rfl fun e _ =>
      conv3d_adjoint_elem B G (fun qx qy qz c => op3 qx qy qz c e)
        (fun a b c => p3 a b c e) (fun a b c => q3 a b c e)

/-- Closed instance of C3 discharging the transposed-table hypotheses at
D = Q = NE = 1 on concrete inputs. -/
theorem C3_adjoint_identity_witness :
    dot2 (@PAConvectionApply2D 1 1 1 (fun _ _ => 2) (fun _ _ => 3) (fun _ _ => 2)
        (fun _ _ => 3) (fun _ _ _ _ => 5) (fun _ _ _ => 6) (fun _ _ _ => 0))
        (fun _ _ _ => 7)
      = dot2 (fun _ _ _ => 6) (@PAConvectionApplyT2D 1 1 1 (fun _ _ => 2) (fun _ _ => 3)
        (fun _ _ => 2) (fun _ _ => 3) (fun _ _ _ _ => 5) (fun _ _ _ => 7)
        (fun _ _ _ => 0))
    ∧ dot3 (@PAConvectionApply3D 1 1 1 (fun _ _ => 2) (fun _ _ => 3) (fun _ _ => 2)
        (fun _ _ => 3) (fun _ _ _ _ _ => 5) (fun _ _ _ _ => 6) (fun _ _ _ _ => 0))
        (fun _ _ _ _ => 7)
      = dot3 (fun _ _ _ _ => 6) (@PAConvectionApplyT3D 1 1 1 (fun _ _ => 2) (fun _ _ => 3)
        (fun _ _ => 2) (fun _ _ => 3) (fun _ _ _ _ _ => 5) (fun _ _ _ _ => 7)
        (fun _ _ _ _ => 0)) :=
  C3_adjoint_identity (fun _ _ => 2) (fun _ _ => 3) (fun _ _ => 2) (fun _ _ => 3)
    (fun _ _ => rfl) (fun _ _ => rfl) (fun _ _ _ _ => 5) (fun _ _ _ => 6)
    (fun _ _ _ => 7) (fun _ _ _ _ _ => 5) (fun _ _ _ _ => 6) (fun _ _ _ _ => 7)

end MFEMConv
